import Mathlib

/-!
# Verification of the ARSCANNER GLB parser / scene builder core

Shallow embedding of the binary 3D-asset (GLB) parsing and scene
construction code duplicated across
`src/frontend/src/screens/ModelViewerScreen.js` (namespace `MV` below) and
`src/frontend/src/screens/ARViewScreen.js` (namespace `AR` below).

Modelling conventions:
* JS `ArrayBuffer`s are `List Nat` of byte values (< 256 in all inputs of
  interest); `Uint8Array` views are a `ByteView` structure (buffer, byte
  offset, byte length), mirroring JS view semantics.
* JS numbers are modelled as exact rationals `ℚ`; IEEE-754 float32 decoding
  is implemented exactly for finite values (`f32FromBits`), with NaN and the
  infinities mapped to `0` (no claim depends on those payloads).  Float
  rounding of arithmetic (e.g. `c / 255` stored into a `Float32Array`) is
  modelled as exact rational arithmetic.
* JS exceptions are an `Err` sum type, with the implicit `RangeError` of
  typed-array constructors / `DataView` accesses as `Err.rangeError` and the
  implicit `TypeError` of property accesses on `undefined` as
  `Err.typeError`; fallible code returns `Except Err _`.
* `JSON.parse` of the document chunk is not modelled: `parseGLB` returns the
  raw document-chunk bytes.  Concrete inputs used in theorems below carry
  well-formed JSON payload bytes so the modelled success/failure agrees with
  the source.
-/

namespace ARScanner

/-- The exceptions the modelled code can raise.  `rangeError` / `typeError`
stand for the implicit `RangeError` / `TypeError` of the JS runtime;
`fuelExhausted` is the marker used by the fuel-indexed embedding of the
recursive `processNode` (it corresponds to no code path: reaching it at
every fuel means the source recursion does not terminate). -/
inductive Err where
  | rangeError
  | typeError
  | invalidMagic (m : Nat)
  | unsupportedVersion (v : Nat)
  | noJsonChunk
  | noBinaryChunk
  | noMeshes
  | noRenderableMeshes
  | unsupportedComponentType (ct : Nat)
  | unsupportedAccessorType (t : String)
  | fuelExhausted
  deriving DecidableEq, Repr

/-- A `Uint8Array`: a view of `len` bytes starting at byte `off` of the
underlying buffer `buf`. -/
structure ByteView where
  buf : List Nat
  off : Nat
  len : Nat
  deriving DecidableEq, Repr

/-- Byte `i` of a view (`view[i]`); out-of-range reads never happen on the
well-formed views the code constructs, the `0` default is inert. -/
def ByteView.byte (b : ByteView) (i : Nat) : Nat :=
  b.buf.getD (b.off + i) 0

/-- `DataView.getUint32(p, true)` on a whole buffer: little-endian, `none`
when the 4 bytes are not available (JS throws a `RangeError`). -/
def readU32 (b : List Nat) (p : Nat) : Option Nat :=
  if p + 4 ≤ b.length then
    some (b.getD p 0 + 256 * b.getD (p+1) 0 + 65536 * b.getD (p+2) 0
      + 16777216 * b.getD (p+3) 0)
  else none

/-- `new Uint8Array(buffer, p, len)` materialised as the byte list; `none`
when the view would exceed the buffer (JS throws a `RangeError`). -/
def subarray (b : List Nat) (p len : Nat) : Option (List Nat) :=
  if p + len ≤ b.length then some ((b.drop p).take len) else none

def GLB_MAGIC : Nat := 0x46546C67
def CHUNK_TYPE_JSON : Nat := 0x4E4F534A
def CHUNK_TYPE_BIN : Nat := 0x004E4942

/-- The chunk loop of `parseGLB` (identical in both source files):
`while (offset < totalLength)` read a chunk header, record JSON / BIN
chunks (each assignment overwrites the accumulator), skip unknown chunk
types, advance by `8 + chunkLength`. -/
def scanChunks (bytes : List Nat) (tl : Nat) (off : Nat)
    (json : Option (List Nat)) (bin : Option ByteView) :
    Except Err (Option (List Nat) × Option ByteView) :=
  if _h : off < tl then
    match readU32 bytes off, readU32 bytes (off + 4) with
    | some chunkLength, some chunkType =>
      if chunkType = CHUNK_TYPE_JSON then
        match subarray bytes (off + 8) chunkLength with
        | some payload =>
            scanChunks bytes tl (off + 8 + chunkLength) (some payload) bin
        | none => .error .rangeError
      else if chunkType = CHUNK_TYPE_BIN then
        if off + 8 + chunkLength ≤ bytes.length then
          scanChunks bytes tl (off + 8 + chunkLength) json
            (some ⟨bytes, off + 8, chunkLength⟩)
        else .error .rangeError
      else
        scanChunks bytes tl (off + 8 + chunkLength) json bin
    | _, _ => .error .rangeError
  else
    .ok (json, bin)
  termination_by tl - off
  decreasing_by
    all_goals omega

/-- `parseGLB(arrayBuffer)`: header checks then the chunk loop, failing with
`noJsonChunk` when no document chunk was seen.  The document chunk is
returned as raw bytes (see the header comment about `JSON.parse`). -/
def parseGLB (bytes : List Nat) : Except Err (List Nat × Option ByteView) := do
  let magic ← (readU32 bytes 0).elim (.error .rangeError) .ok
  if magic ≠ GLB_MAGIC then
    .error (.invalidMagic magic)
  else do
  let version ← (readU32 bytes 4).elim (.error .rangeError) .ok
  if version ≠ 2 then
    .error (.unsupportedVersion version)
  else do
  let totalLength ← (readU32 bytes 8).elim (.error .rangeError) .ok
  match ← scanChunks bytes totalLength 12 none none with
  | (some json, bin) => .ok (json, bin)
  | (none, _) => .error .noJsonChunk

/-! ## glTF document model

Mirrors exactly the fields the source reads from the parsed JSON document.
`Option` marks fields the code tests for `undefined` (or whose absence the
code tolerates through JS property-access semantics). -/

structure Accessor where
  bufferView : Option Nat
  componentType : Nat
  type : String
  count : Nat
  byteOffset : Option Nat
  deriving DecidableEq, Repr

structure BufferView where
  byteOffset : Option Nat
  byteStride : Option Nat
  deriving DecidableEq, Repr

structure PrimAttrs where
  POSITION : Option Nat
  NORMAL : Option Nat
  TEXCOORD_0 : Option Nat
  COLOR_0 : Option Nat
  deriving DecidableEq, Repr

structure Primitive where
  attributes : PrimAttrs
  indices : Option Nat
  material : Option Nat
  deriving DecidableEq, Repr

structure MeshDef where
  primitives : List Primitive
  deriving DecidableEq, Repr

structure MaterialPBR where
  baseColorFactor : Option (ℚ × ℚ × ℚ × ℚ)
  metallicFactor : Option ℚ
  roughnessFactor : Option ℚ
  deriving DecidableEq, Repr

structure MaterialDef where
  pbrMetallicRoughness : Option MaterialPBR
  emissiveFactor : Option (ℚ × ℚ × ℚ)
  alphaMode : Option String
  alphaCutoff : Option ℚ
  doubleSided : Option Bool
  deriving DecidableEq, Repr

structure NodeDef where
  mesh : Option Nat
  matrix : Option (List ℚ)
  translation : Option (List ℚ)
  rotation : Option (List ℚ)
  scale : Option (List ℚ)
  children : Option (List Nat)
  deriving DecidableEq, Repr

structure SceneDef where
  nodes : Option (List Nat)
  deriving DecidableEq, Repr

structure Gltf where
  accessors : List Accessor
  bufferViews : List BufferView
  meshes : Option (List MeshDef)
  materials : Option (List MaterialDef)
  nodes : Option (List NodeDef)
  scenes : Option (List SceneDef)
  scene : Option Nat
  deriving DecidableEq, Repr

/-- `COMPONENT_TYPES[ct].size` — byte width of a supported component type
(the table also selects the typed-array constructor, which in this model is
the decoding function `decodeAt` below); `none` for unsupported types. -/
def componentSize (ct : Nat) : Option Nat :=
  if ct = 5120 then some 1
  else if ct = 5121 then some 1
  else if ct = 5122 then some 2
  else if ct = 5123 then some 2
  else if ct = 5125 then some 4
  else if ct = 5126 then some 4
  else none

/-- `TYPE_SIZES[type]` — components per element; `none` when the lookup is
`undefined` (falsy, the code throws). -/
def typeSize (t : String) : Option Nat :=
  if t = "SCALAR" then some 1
  else if t = "VEC2" then some 2
  else if t = "VEC3" then some 3
  else if t = "VEC4" then some 4
  else if t = "MAT2" then some 4
  else if t = "MAT3" then some 9
  else if t = "MAT4" then some 16
  else none

/-! ## Numeric decoding

Little-endian decoding of the component types, as performed both by the
typed-array constructors and by the explicit `DataView` reads of the
interleaved path. -/

/-- Two's-complement interpretation of an 8-bit byte (`Int8Array` /
`getInt8`). -/
def toInt8 (n : Nat) : ℤ :=
  if n < 128 then (n : ℤ) else (n : ℤ) - 256

/-- Two's-complement interpretation of a 16-bit value (`Int16Array` /
`getInt16`). -/
def toInt16 (n : Nat) : ℤ :=
  if n < 32768 then (n : ℤ) else (n : ℤ) - 65536

/-- Exact value of an IEEE-754 binary32 bit pattern.  NaN and the two
infinities are mapped to `0` (no claim in scope observes them). -/
def f32FromBits (b : Nat) : ℚ :=
  let s : ℚ := if b / 2 ^ 31 % 2 = 1 then -1 else 1
  let e : Nat := b / 2 ^ 23 % 2 ^ 8
  let m : Nat := b % 2 ^ 23
  if e = 255 then 0
  else if e = 0 then s * (m : ℚ) / 2 ^ 149
  else s * ((2 ^ 23 + m : ℚ) / 2 ^ 23) * (2 : ℚ) ^ ((e : ℤ) - 127)

/-- Decode one scalar of component type `ct` from bytes `b` starting at
index `p` (little-endian, like the typed arrays / `DataView` reads). -/
def decodeAt (ct : Nat) (b : List Nat) (p : Nat) : ℚ :=
  let u16 := b.getD p 0 + 256 * b.getD (p+1) 0
  let u32 := b.getD p 0 + 256 * b.getD (p+1) 0 + 65536 * b.getD (p+2) 0
      + 16777216 * b.getD (p+3) 0
  if ct = 5121 then (b.getD p 0 : ℚ)
  else if ct = 5120 then (toInt8 (b.getD p 0) : ℚ)
  else if ct = 5123 then (u16 : ℚ)
  else if ct = 5122 then (toInt16 u16 : ℚ)
  else if ct = 5125 then (u32 : ℚ)
  else if ct = 5126 then f32FromBits u32
  else 0

/-! ## `readAccessor`, ModelViewerScreen version -/

namespace MV

/-- `readAccessor(gltf, binaryData, accessorIndex)` of
`ModelViewerScreen.js`.

Tight path (`byteStride` 0 or equal to the tight stride):
`new COMPONENT_TYPES[ct].array(binaryData.buffer, binaryData.byteOffset +
byteOffset, totalElements)` — an **in-place typed-array view on the source
buffer**, which raises a `RangeError` when the absolute start offset is not
a multiple of the component width or when the view exceeds the underlying
buffer (not the chunk!).

Interleaved path: `DataView(binaryData.buffer, binaryData.byteOffset)`
(no length cap, so it extends to the end of the underlying buffer) read
element by element; a read past the end of the underlying buffer raises a
`RangeError`. -/
def readAccessor (g : Gltf) (bin : ByteView) (i : Nat) :
    Except Err (List ℚ) :=
  match g.accessors.get? i with
  | none => .error .typeError
  | some accessor =>
  match componentSize accessor.componentType with
  | none => .error (.unsupportedComponentType accessor.componentType)
  | some size =>
  match typeSize accessor.type with
  | none => .error (.unsupportedAccessorType accessor.type)
  | some numComponents =>
  match accessor.bufferView.bind g.bufferViews.get? with
  | none => .error .typeError
  | some bufferView =>
  let byteOffset := bufferView.byteOffset.getD 0 + accessor.byteOffset.getD 0
  let count := accessor.count
  let byteStride := bufferView.byteStride.getD 0
  let tightStride := size * numComponents
  if byteStride = 0 ∨ byteStride = tightStride then
    let totalElements := count * numComponents
    let absOff := bin.off + byteOffset
    if absOff % size ≠ 0 then .error .rangeError
    else if bin.buf.length < absOff + totalElements * size then
      .error .rangeError
    else
      .ok ((List.range totalElements).map fun k =>
        decodeAt accessor.componentType bin.buf (absOff + k * size))
  else
    (List.range count).foldlM (fun acc i =>
      (List.range numComponents).foldlM (fun acc2 j =>
        let compOffset := byteOffset + i * byteStride + j * size
        if bin.buf.length < bin.off + compOffset + size then
          .error Err.rangeError
        else
          .ok (acc2 ++
            [decodeAt accessor.componentType bin.buf (bin.off + compOffset)]))
        acc)
      ([] : List ℚ)

end MV

/-! ## `readAccessor`, ARViewScreen version -/

namespace AR

/-- Result of the AR `readAccessor`: the decoded values together with
whether any `console.warn` diagnostic about clamping / out-of-bounds reads
was emitted. -/
structure ReadResult where
  values : List ℚ
  warned : Bool
  deriving DecidableEq, Repr

/-- Inner `for (j ...)` loop of the AR interleaved path: per-component
bounds check against the chunk length, `break` (recorded as a warning) on
the first out-of-bounds component, otherwise write the decoded value at
`i * numComponents + j`.  Iterates `j`, with `r` components remaining. -/
def innerLoop (bin : ByteView) (ct size numComponents i elementOffset : Nat) :
    Nat → Nat → List ℚ × Bool → List ℚ × Bool
  | _, 0, st => st
  | j, r + 1, (vals, w) =>
    let compOffset := elementOffset + j * size
    if bin.len < compOffset + size then (vals, true)
    else
      innerLoop bin ct size numComponents i elementOffset (j + 1) r
        (vals.set (i * numComponents + j)
          (decodeAt ct bin.buf (bin.off + compOffset)), w)

/-- `readAccessor(gltf, binaryData, accessorIndex)` of `ARViewScreen.js`.

Emits a `console.warn`(modelled by the `warned` flag) when the computed
tight region overflows the chunk.  Tight path: `binaryData.slice(srcStart,
srcEnd)` — a **fresh copy** of the clamped byte range — then
`new COMPONENT_TYPES[ct].array(slice.buffer, 0, totalElements)`, which
raises a `RangeError` when the copy holds fewer than `totalBytes` bytes.
Interleaved path: `DataView(binaryData.buffer, binaryData.byteOffset,
binaryData.byteLength)` (capped to the chunk) with a per-component bounds
check: out-of-bounds components are skipped (`break`) with a warning and
keep their zero initialisation. -/
def readAccessor (g : Gltf) (bin : ByteView) (i : Nat) :
    Except Err ReadResult :=
  match g.accessors.get? i with
  | none => .error .typeError
  | some accessor =>
  match componentSize accessor.componentType with
  | none => .error (.unsupportedComponentType accessor.componentType)
  | some size =>
  match typeSize accessor.type with
  | none => .error (.unsupportedAccessorType accessor.type)
  | some numComponents =>
  match accessor.bufferView.bind g.bufferViews.get? with
  | none => .error .typeError
  | some bufferView =>
  let byteOffset := bufferView.byteOffset.getD 0 + accessor.byteOffset.getD 0
  let count := accessor.count
  let byteStride := bufferView.byteStride.getD 0
  let tightStride := size * numComponents
  let totalElements := count * numComponents
  let totalBytes := totalElements * size
  let warned := decide (bin.len < byteOffset + totalBytes)
  if byteStride = 0 ∨ byteStride = tightStride then
    let srcStart := min byteOffset bin.len
    let srcEnd := min (byteOffset + totalBytes) bin.len
    let slice := (bin.buf.drop (bin.off + srcStart)).take (srcEnd - srcStart)
    if slice.length < totalBytes then .error .rangeError
    else
      .ok ⟨(List.range totalElements).map fun k =>
        decodeAt accessor.componentType slice (k * size), warned⟩
  else
    let r := (List.range count).foldl (fun st i =>
        innerLoop bin accessor.componentType size numComponents i
          (byteOffset + i * byteStride) 0 numComponents st)
      (List.replicate (count * numComponents) (0 : ℚ), warned)
    .ok ⟨r.1, r.2⟩

end AR

/-! ## Scene graph objects produced by the builders -/

/-- Local transform recorded on a built group: either the explicit node
matrix (`obj.applyMatrix4`) or the separate translation / rotation
quaternion / scale set on the object. -/
structure TransformData where
  matrix : Option (List ℚ)
  translation : Option (List ℚ)
  rotation : Option (List ℚ)
  scale : Option (List ℚ)
  deriving DecidableEq, Repr

/-- Transform of a freshly constructed `THREE.Group` (nothing assigned). -/
def idTransform : TransformData := ⟨none, none, none, none⟩

/-- `THREE.MeshStandardMaterial` parameters the builders set. -/
structure MatProps where
  metalness : Option ℚ
  roughness : Option ℚ
  doubleSided : Bool
  color : Option (ℚ × ℚ × ℚ)
  transparent : Bool
  opacity : Option ℚ
  emissive : Option (ℚ × ℚ × ℚ)
  emissiveIntensity : Option ℚ
  alphaTest : Option ℚ
  vertexColors : Bool
  deriving DecidableEq, Repr

/-- A built `THREE.Mesh`: the typed attribute arrays of its
`BufferGeometry` plus its material.  `autoNormals` records that
`computeVertexNormals()` was invoked (its output involves square-root
normalisation and is outside the rational model; no claim in scope
observes the computed values). -/
structure Prim where
  position : List ℚ
  normal : Option (List ℚ)
  uv : Option (List ℚ)
  color : Option (List ℚ)
  colorItemSize : Option Nat
  indexKind : Option Nat
  index : Option (List ℚ)
  autoNormals : Bool
  material : MatProps
  deriving DecidableEq, Repr

/-- A built scene-graph object: a `THREE.Mesh` leaf or a `THREE.Group`
with a transform and children. -/
inductive BuiltObj where
  | mesh (p : Prim)
  | group (t : TransformData) (children : List BuiltObj)

/-- The thrown error of a computation, if any. -/
def errOf {α : Type _} (r : Except Err α) : Option Err :=
  match r with
  | .error e => some e
  | .ok _ => none

/-- JS `ToUint16`-style truncation used by `new Uint16Array(src)`. -/
def toUint16 (q : ℚ) : ℚ :=
  (((if q < 0 then -(⌊-q⌋) else ⌊q⌋) % 65536 : ℤ) : ℚ)

mutual

/-- Number of `isMesh` descendants (the `group.traverse` counting loop of
the AR `loadModel`). -/
def meshCount : BuiltObj → Nat
  | .mesh _ => 1
  | .group _ cs => meshCountList cs

def meshCountList : List BuiltObj → Nat
  | [] => 0
  | c :: cs => meshCount c + meshCountList cs

end

/-! ## ModelViewerScreen builder -/

namespace MV

/-- `buildMaterial(gltfJson, primitive)` of `ModelViewerScreen.js`:
defaults `metalness: 0.1, roughness: 0.8, side: DoubleSide`, then copies
PBR factors, emissive, and the double-sided flag; enables vertex colors
when `COLOR_0` is present; falls back to color `0x8899aa` when neither a
base color nor vertex colors exist.  An out-of-range material index makes
`mat.pbrMetallicRoughness` a property access on `undefined` (TypeError). -/
def buildMaterial (g : Gltf) (p : Primitive) : Except Err MatProps :=
  let props : MatProps :=
    { metalness := some (1/10), roughness := some (4/5), doubleSided := true,
      color := none, transparent := false, opacity := none, emissive := none,
      emissiveIntensity := none, alphaTest := none, vertexColors := false }
  let fromMat : Except Err MatProps :=
    match p.material, g.materials with
    | some mi, some mats =>
      match mats.get? mi with
      | none => .error .typeError
      | some mat =>
        let props :=
          match mat.pbrMetallicRoughness with
          | some pbr =>
            let props :=
              match pbr.baseColorFactor with
              | some (r, gr, b, a) =>
                let props := { props with color := some (r, gr, b) }
                if a < 1 then
                  { props with transparent := true, opacity := some a }
                else props
              | none => props
            let props :=
              match pbr.metallicFactor with
              | some mf => { props with metalness := some mf }
              | none => props
            match pbr.roughnessFactor with
            | some rf => { props with roughness := some rf }
            | none => props
          | none => props
        let props :=
          match mat.emissiveFactor with
          | some e => { props with emissive := some e }
          | none => props
        if mat.doubleSided = some false then
          .ok { props with doubleSided := false }
        else .ok props
    | _, _ => .ok props
  match fromMat with
  | .error e => .error e
  | .ok props =>
    let hasVertexColors := p.attributes.COLOR_0.isSome
    let props :=
      if hasVertexColors then { props with vertexColors := true } else props
    if props.color.isNone ∧ ¬hasVertexColors then
      .ok { props with color := some (136/255, 153/255, 170/255) }
    else .ok props

/-- `buildPrimitive(gltfJson, binaryData, primitive)` of
`ModelViewerScreen.js`.  Returns `none` (skip, with a logged warning) when
the primitive has no `POSITION` attribute; every thrown exception —
including `readAccessor`'s unsupported-type errors on any attribute —
propagates to the caller. -/
def buildPrimitive (g : Gltf) (bin : Option ByteView) (p : Primitive) :
    Except Err (Option Prim) :=
  match bin with
  | none => .error .noBinaryChunk
  | some binaryData =>
  match p.attributes.POSITION with
  | none => .ok none
  | some posIdx =>
  match readAccessor g binaryData posIdx with
  | .error e => .error e
  | .ok positions =>
  match (match p.attributes.NORMAL with
         | none => Except.ok none
         | some ni => (readAccessor g binaryData ni).map some) with
  | .error e => .error e
  | .ok normals =>
  match (match p.attributes.TEXCOORD_0 with
         | none => Except.ok none
         | some ti => (readAccessor g binaryData ti).map some) with
  | .error e => .error e
  | .ok uvs =>
  match (match p.attributes.COLOR_0 with
         | none => Except.ok none
         | some ci =>
           match readAccessor g binaryData ci with
           | .error e => .error e
           | .ok colors =>
             match g.accessors.get? ci with
             | none => .error Err.typeError
             | some accessor =>
               let colorArray :=
                 if accessor.componentType = 5121 then
                   colors.map (fun c => c / 255)
                 else if accessor.componentType = 5123 then
                   colors.map (fun c => c / 65535)
                 else colors
               Except.ok (some (colorArray, typeSize accessor.type))) with
  | .error e => .error e
  | .ok colorData =>
  match (match p.indices with
         | none => Except.ok none
         | some ii =>
           match readAccessor g binaryData ii with
           | .error e => .error e
           | .ok inds =>
             match g.accessors.get? ii with
             | none => .error Err.typeError
             | some accessor =>
               if accessor.componentType = 5125 then
                 Except.ok (some ((32 : Nat), inds))
               else
                 Except.ok (some ((16 : Nat), inds.map toUint16))) with
  | .error e => .error e
  | .ok indexData =>
  match buildMaterial g p with
  | .error e => .error e
  | .ok material =>
  .ok (some
    { position := positions
      normal := normals
      uv := uvs
      color := colorData.map (·.1)
      colorItemSize := colorData.bind (·.2)
      indexKind := indexData.map (·.1)
      index := indexData.map (·.2)
      autoNormals := p.attributes.NORMAL.isNone
      material := material })

/-- `processNode(gltfJson, binaryData, nodeIndex)` of
`ModelViewerScreen.js`, indexed by a recursion budget `fuel` (the source
recurses without any cycle detection; `fuel = 0` yields the
`fuelExhausted` marker, which corresponds to no source code path). -/
def processNodeF (fuel : Nat) (g : Gltf) (bin : Option ByteView)
    (nodeIndex : Nat) : Except Err (Option BuiltObj) :=
  match fuel with
  | 0 => .error .fuelExhausted
  | fuel' + 1 =>
    match g.nodes with
    | none => .error .typeError
    | some nodes =>
    match nodes.get? nodeIndex with
    | none => .ok none
    | some node =>
    let primObjs : Except Err (List BuiltObj) :=
      match node.mesh with
      | none => .ok []
      | some mi =>
        match g.meshes with
        | none => .error .typeError
        | some meshes =>
        match meshes.get? mi with
        | none => .error .typeError
        | some meshDef =>
          meshDef.primitives.foldlM (fun acc prim => do
            let m ← buildPrimitive g bin prim
            pure (acc ++ m.toList.map BuiltObj.mesh)) []
    match primObjs with
    | .error e => .error e
    | .ok primChildren =>
    let t : TransformData :=
      match node.matrix with
      | some m =>
        { matrix := some m, translation := none, rotation := none,
          scale := none }
      | none =>
        { matrix := none, translation := node.translation,
          rotation := node.rotation, scale := node.scale }
    match node.children with
    | none => .ok (some (.group t primChildren))
    | some cs =>
      match cs.foldlM (fun acc ci => do
          let c ← processNodeF fuel' g bin ci
          pure (acc ++ c.toList)) ([] : List BuiltObj) with
      | .error e => .error e
      | .ok childObjs => .ok (some (.group t (primChildren ++ childObjs)))
  termination_by fuel

/-- `buildSceneFromGLTF(gltfJson, binaryData)` of `ModelViewerScreen.js`
(with the recursion budget threaded through to `processNodeF`). -/
def buildSceneF (fuel : Nat) (g : Gltf) (bin : Option ByteView) :
    Except Err BuiltObj :=
  match g.meshes with
  | none => .error .noMeshes
  | some meshes =>
  if meshes.length = 0 then .error .noMeshes
  else
    let viaNodes : Option (List Nat) :=
      match g.nodes, g.scenes with
      | some _, some scenes =>
        match scenes.get? (g.scene.getD 0) with
        | some sc => sc.nodes
        | none => none
      | _, _ => none
    match viaNodes with
    | some roots =>
      match roots.foldlM (fun acc i => do
          let n ← processNodeF fuel g bin i
          pure (acc ++ n.toList)) ([] : List BuiltObj) with
      | .error e => .error e
      | .ok kids => .ok (.group idTransform kids)
    | none =>
      match meshes.foldlM (fun acc meshDef =>
          meshDef.primitives.foldlM (fun acc2 prim => do
            let m ← buildPrimitive g bin prim
            pure (acc2 ++ m.toList.map BuiltObj.mesh)) acc)
          ([] : List BuiltObj) with
      | .error e => .error e
      | .ok kids => .ok (.group idTransform kids)

end MV

/-! ## ARViewScreen builder -/

namespace AR

/-- `buildMaterial(gltfJson, primitive)` of `ARViewScreen.js`: starts from
`{ side: DoubleSide }` only; when a PBR block is present, `metalness`
defaults to `0` and `roughness` to `1`; handles `alphaMode` `BLEND` /
`MASK` with the `0.5` cutoff default; falls back to color `0xcccccc` and
always sets a `0x111111` emissive with intensity `0.2`. -/
def buildMaterial (g : Gltf) (p : Primitive) : Except Err MatProps :=
  let props : MatProps :=
    { metalness := none, roughness := none, doubleSided := true,
      color := none, transparent := false, opacity := none, emissive := none,
      emissiveIntensity := none, alphaTest := none, vertexColors := false }
  let fromMat : Except Err MatProps :=
    match p.material, g.materials with
    | some mi, some mats =>
      match mats.get? mi with
      | none => .error .typeError
      | some mat =>
        let props :=
          match mat.pbrMetallicRoughness with
          | some pbr =>
            let props :=
              match pbr.baseColorFactor with
              | some (r, gr, b, a) =>
                let props := { props with color := some (r, gr, b) }
                if a < 1 then
                  { props with transparent := true, opacity := some a }
                else props
              | none => props
            { props with
                metalness := some (pbr.metallicFactor.getD 0),
                roughness := some (pbr.roughnessFactor.getD 1) }
          | none => props
        let props :=
          if mat.alphaMode = some "BLEND" then
            let props := { props with transparent := true }
            match mat.alphaCutoff with
            | some c => { props with alphaTest := some c }
            | none => props
          else if mat.alphaMode = some "MASK" then
            { props with alphaTest := some (mat.alphaCutoff.getD (1/2)) }
          else props
        if mat.doubleSided = some false then
          .ok { props with doubleSided := false }
        else .ok props
    | _, _ => .ok props
  match fromMat with
  | .error e => .error e
  | .ok props =>
    let props :=
      if props.color.isNone then
        { props with color := some (204/255, 204/255, 204/255) }
      else props
    .ok { props with emissive := some (17/255, 17/255, 17/255),
                     emissiveIntensity := some (1/5) }

/-- `buildPrimitive(gltfJson, binaryData, primitive)` of `ARViewScreen.js`;
identical control flow to the ModelViewer version except that its
`readAccessor` returns the (values, warned) pair — only the values feed
the geometry — and its `buildMaterial` differs. -/
def buildPrimitive (g : Gltf) (bin : Option ByteView) (p : Primitive) :
    Except Err (Option Prim) :=
  match bin with
  | none => .error .noBinaryChunk
  | some binaryData =>
  match p.attributes.POSITION with
  | none => .ok none
  | some posIdx =>
  match readAccessor g binaryData posIdx with
  | .error e => .error e
  | .ok positions =>
  match (match p.attributes.NORMAL with
         | none => Except.ok none
         | some ni => (readAccessor g binaryData ni).map some) with
  | .error e => .error e
  | .ok normals =>
  match (match p.attributes.TEXCOORD_0 with
         | none => Except.ok none
         | some ti => (readAccessor g binaryData ti).map some) with
  | .error e => .error e
  | .ok uvs =>
  match (match p.attributes.COLOR_0 with
         | none => Except.ok none
         | some ci =>
           match readAccessor g binaryData ci with
           | .error e => .error e
           | .ok colors =>
             match g.accessors.get? ci with
             | none => .error Err.typeError
             | some accessor =>
               let colorArray :=
                 if accessor.componentType = 5121 then
                   colors.values.map (fun c => c / 255)
                 else if accessor.componentType = 5123 then
                   colors.values.map (fun c => c / 65535)
                 else colors.values
               Except.ok (some (colorArray, typeSize accessor.type))) with
  | .error e => .error e
  | .ok colorData =>
  match (match p.indices with
         | none => Except.ok none
         | some ii =>
           match readAccessor g binaryData ii with
           | .error e => .error e
           | .ok inds =>
             match g.accessors.get? ii with
             | none => .error Err.typeError
             | some accessor =>
               if accessor.componentType = 5125 then
                 Except.ok (some ((32 : Nat), inds.values))
               else
                 Except.ok (some ((16 : Nat), inds.values.map toUint16))) with
  | .error e => .error e
  | .ok indexData =>
  match buildMaterial g p with
  | .error e => .error e
  | .ok material =>
  .ok (some
    { position := positions.values
      normal := normals.map (·.values)
      uv := uvs.map (·.values)
      color := colorData.map (·.1)
      colorItemSize := colorData.bind (·.2)
      indexKind := indexData.map (·.1)
      index := indexData.map (·.2)
      autoNormals := p.attributes.NORMAL.isNone
      material := material })

/-- `processNode(gltfJson, binaryData, nodeIndex)` of `ARViewScreen.js`,
fuel-indexed exactly like `MV.processNodeF` (the two sources are
line-for-line identical here apart from the `buildPrimitive` they call). -/
def processNodeF (fuel : Nat) (g : Gltf) (bin : Option ByteView)
    (nodeIndex : Nat) : Except Err (Option BuiltObj) :=
  match fuel with
  | 0 => .error .fuelExhausted
  | fuel' + 1 =>
    match g.nodes with
    | none => .error .typeError
    | some nodes =>
    match nodes.get? nodeIndex with
    | none => .ok none
    | some node =>
    let primObjs : Except Err (List BuiltObj) :=
      match node.mesh with
      | none => .ok []
      | some mi =>
        match g.meshes with
        | none => .error .typeError
        | some meshes =>
        match meshes.get? mi with
        | none => .error .typeError
        | some meshDef =>
          meshDef.primitives.foldlM (fun acc prim => do
            let m ← buildPrimitive g bin prim
            pure (acc ++ m.toList.map BuiltObj.mesh)) []
    match primObjs with
    | .error e => .error e
    | .ok primChildren =>
    let t : TransformData :=
      match node.matrix with
      | some m =>
        { matrix := some m, translation := none, rotation := none,
          scale := none }
      | none =>
        { matrix := none, translation := node.translation,
          rotation := node.rotation, scale := node.scale }
    match node.children with
    | none => .ok (some (.group t primChildren))
    | some cs =>
      match cs.foldlM (fun acc ci => do
          let c ← processNodeF fuel' g bin ci
          pure (acc ++ c.toList)) ([] : List BuiltObj) with
      | .error e => .error e
      | .ok childObjs => .ok (some (.group t (primChildren ++ childObjs)))
  termination_by fuel

/-- `buildSceneFromGLTF(gltfJson, binaryData)` of `ARViewScreen.js`. -/
def buildSceneF (fuel : Nat) (g : Gltf) (bin : Option ByteView) :
    Except Err BuiltObj :=
  match g.meshes with
  | none => .error .noMeshes
  | some meshes =>
  if meshes.length = 0 then .error .noMeshes
  else
    let viaNodes : Option (List Nat) :=
      match g.nodes, g.scenes with
      | some _, some scenes =>
        match scenes.get? (g.scene.getD 0) with
        | some sc => sc.nodes
        | none => none
      | _, _ => none
    match viaNodes with
    | some roots =>
      match roots.foldlM (fun acc i => do
          let n ← processNodeF fuel g bin i
          pure (acc ++ n.toList)) ([] : List BuiltObj) with
      | .error e => .error e
      | .ok kids => .ok (.group idTransform kids)
    | none =>
      match meshes.foldlM (fun acc meshDef =>
          meshDef.primitives.foldlM (fun acc2 prim => do
            let m ← buildPrimitive g bin prim
            pure (acc2 ++ m.toList.map BuiltObj.mesh)) acc)
          ([] : List BuiltObj) with
      | .error e => .error e
      | .ok kids => .ok (.group idTransform kids)

/-- The mesh-count guard of the AR `loadModel`: after building the scene it
counts `isMesh` descendants and throws
`'GLB parsing produced no renderable meshes'` when there are none (the
ModelViewer pipeline has no analogous check). -/
def checkRenderableMeshes (obj : BuiltObj) : Except Err Unit :=
  if meshCount obj = 0 then .error .noRenderableMeshes else .ok ()

end AR

/-! ## Geometric model for `normalizeModel`

`normalizeModel` manipulates a built `THREE.Group`: it reads the
world-space bounding box (`Box3.setFromObject`), mutates the group's
`scale` / `position`, and (AR only) the positions of the group's **direct**
children.  We model the group geometrically: the root carries its own
position and scale; each direct child carries its position, its scale and
the point cloud of its entire subtree expressed in the child's local frame
(deeper transforms are composed away, since `normalizeModel` only ever
touches the root transform and the direct children's positions).  Node
rotations are identity in this model; the claims under consideration
quantify over freshly composed scenes whose root transform is the
identity, and uniform scaling/translation commute with the children's
internal (frozen) transforms exactly as in the source. -/

structure V3 where
  x : ℚ
  y : ℚ
  z : ℚ
  deriving DecidableEq, Repr

/-- Apply a translation+scale local transform to a point
(`world = position + scale ∘ local`, THREE's `T·R·S` with identity `R`). -/
def xformPt (pos scl p : V3) : V3 :=
  ⟨pos.x + scl.x * p.x, pos.y + scl.y * p.y, pos.z + scl.z * p.z⟩

/-- A direct child of the group: `position`, `scale`, and the subtree's
vertex positions in the child's local frame. -/
structure SceneChild where
  pos : V3
  scl : V3
  body : List V3
  deriving DecidableEq, Repr

/-- A built scene group as handed to `normalizeModel`. -/
structure SceneGroup where
  pos : V3
  scl : V3
  children : List SceneChild
  deriving DecidableEq, Repr

/-- All world-space vertex positions below the group (what
`Box3.setFromObject` ranges over). -/
def SceneGroup.worldPoints (g : SceneGroup) : List V3 :=
  (g.children.flatMap fun c => c.body.map (xformPt c.pos c.scl)).map
    (xformPt g.pos g.scl)

structure Box3 where
  lo : V3
  hi : V3
  deriving DecidableEq, Repr

def vmin (a b : V3) : V3 := ⟨min a.x b.x, min a.y b.y, min a.z b.z⟩
def vmax (a b : V3) : V3 := ⟨max a.x b.x, max a.y b.y, max a.z b.z⟩

/-- Axis-aligned bounding box of a point list; `none` for the empty list
(THREE's empty box, whose `getSize` is defined to be `(0,0,0)`). -/
def bboxOf : List V3 → Option Box3
  | [] => none
  | p :: ps => some (ps.foldl (fun bx q => ⟨vmin bx.lo q, vmax bx.hi q⟩) ⟨p, p⟩)

def boxSize (b : Box3) : V3 :=
  ⟨b.hi.x - b.lo.x, b.hi.y - b.lo.y, b.hi.z - b.lo.z⟩

def boxCenter (b : Box3) : V3 :=
  ⟨(b.lo.x + b.hi.x) / 2, (b.lo.y + b.hi.y) / 2, (b.lo.z + b.hi.z) / 2⟩

def maxDimOf (s : V3) : ℚ := max s.x (max s.y s.z)

namespace MV

/-- `normalizeModel(group, targetSize)` of `ModelViewerScreen.js`: computes
the world bounding box, **scales the whole group first**, recomputes the
box, and then translates the group so that the scaled box's *center* sits
at the origin (on all three axes — the bottom is *not* placed at `y = 0`). -/
def normalizeModel (group : SceneGroup) (targetSize : ℚ) : SceneGroup :=
  match bboxOf group.worldPoints with
  | none => group
  | some box =>
    let size := boxSize box
    let maxDim := maxDimOf size
    if maxDim = 0 then group
    else
      let scale := targetSize / maxDim
      let g1 : SceneGroup :=
        { group with scl := ⟨group.scl.x * scale, group.scl.y * scale,
                             group.scl.z * scale⟩ }
      match bboxOf g1.worldPoints with
      | none => g1
      | some sbox =>
        let scaledCenter := boxCenter sbox
        { g1 with pos := ⟨g1.pos.x - scaledCenter.x, g1.pos.y - scaledCenter.y,
                          g1.pos.z - scaledCenter.z⟩ }

end MV

namespace AR

/-- `normalizeModel(group, targetSize)` of `ARViewScreen.js`: computes the
world bounding box, then — using the original box — shifts every **direct
child** so that the horizontal box center moves to the origin and the box
bottom to `y = 0`, and only then multiplies the group scale by
`targetSize / maxDim`.  Returns the group together with the
pre-normalization dimensions. -/
def normalizeModel (group : SceneGroup) (targetSize : ℚ) :
    SceneGroup × V3 :=
  match bboxOf group.worldPoints with
  | none => (group, ⟨0, 0, 0⟩)
  | some box =>
    let center := boxCenter box
    let size := boxSize box
    let maxDim := maxDimOf size
    if maxDim = 0 then (group, ⟨0, 0, 0⟩)
    else
      let offsetX := -center.x
      let offsetZ := -center.z
      let offsetY := -box.lo.y
      let children := group.children.map fun c =>
        { c with pos := ⟨c.pos.x + offsetX, c.pos.y + offsetY,
                         c.pos.z + offsetZ⟩ }
      let scale := targetSize / maxDim
      ({ group with children := children,
                    scl := ⟨group.scl.x * scale, group.scl.y * scale,
                            group.scl.z * scale⟩ }, size)

end AR

/-! # Claims

One theorem per claim of the specification audit, with concrete witnesses
and counterexamples. -/

instance {ε α : Type _} [DecidableEq ε] [DecidableEq α] :
    DecidableEq (Except ε α) := fun a b =>
  match a, b with
  | .ok x, .ok y =>
    if h : x = y then isTrue (by rw [h]) else isFalse (by simp [h])
  | .error x, .error y =>
    if h : x = y then isTrue (by rw [h]) else isFalse (by simp [h])
  | .ok _, .error _ => isFalse (by simp)
  | .error _, .ok _ => isFalse (by simp)

/-! ## C1 — chunk truncation behaviour of `parseGLB` -/

/-- Concrete container for the C1 counterexample: the header declares a
total length of 13, but the single JSON chunk at offset 12 declares length
4 and spans bytes 12–24, beyond the declared total length (while staying
inside the 24-byte buffer).  The payload is the JSON text `true` so that
the source's `JSON.parse` also succeeds. -/
def c1Bytes : List Nat :=
  [0x67, 0x6C, 0x54, 0x46, 2, 0, 0, 0, 13, 0, 0, 0,
   4, 0, 0, 0, 74, 83, 79, 78, 116, 114, 117, 101]

/-- **C1, counterexample.**  The chunk at offset 12 of `c1Bytes` spans
bytes 12–24 while the container declares a total length of only 13, yet
`parseGLB` succeeds (returning the chunk's payload, the JSON text `true`)
instead of failing with a `TruncatedContainer` error. -/
theorem C1_counterexample :
    parseGLB c1Bytes = .ok ([116, 114, 117, 101], none) := by
  simp [parseGLB, scanChunks, readU32, subarray, c1Bytes,
    GLB_MAGIC, CHUNK_TYPE_JSON, CHUNK_TYPE_BIN]
  all_goals decide

/-- **C1 (amended).**  `parseGLB` never validates chunks against the
declared total length (see `C1_counterexample`); only when a *recognized*
(document or binary) chunk's declared length extends past the end of the
buffer does the chunk loop fail — with the generic range error raised by
the chunk-payload view construction, not a distinct `TruncatedContainer`
error — and no byte outside the buffer is read. -/
theorem C1_recognized_oversized_chunk_fails
    (bytes : List Nat) (tl off : Nat) (json : Option (List Nat))
    (bin : Option ByteView) (len ty : Nat)
    (hlt : off < tl)
    (hlen : readU32 bytes off = some len)
    (hty : readU32 bytes (off + 4) = some ty)
    (hrec : ty = CHUNK_TYPE_JSON ∨ ty = CHUNK_TYPE_BIN)
    (hover : bytes.length < off + 8 + len) :
    scanChunks bytes tl off json bin = .error .rangeError := by
  rw [scanChunks]
  rcases hrec with h | h <;> subst h
  · simp only [dif_pos hlt, hlen, hty]
    simp [subarray, show ¬(off + 8 + len ≤ bytes.length) by omega]
  · simp only [dif_pos hlt, hlen, hty]
    simp [CHUNK_TYPE_JSON, CHUNK_TYPE_BIN,
      show ¬(off + 8 + len ≤ bytes.length) by omega]

/-- Concrete buffer for the C1 witness: at offset 12 a JSON-typed chunk
declares length 100, but the buffer holds only 20 bytes. -/
def c1wBytes : List Nat :=
  [0, 0, 0, 0, 0, 0, 0, 0, 0, 0, 0, 0, 100, 0, 0, 0, 74, 83, 79, 78]

/-- Witness for `C1_recognized_oversized_chunk_fails` at `c1wBytes`. -/
theorem C1_recognized_oversized_chunk_fails_witness :
    scanChunks c1wBytes 30 12 none none = .error .rangeError :=
  C1_recognized_oversized_chunk_fails c1wBytes 30 12 none none 100
    CHUNK_TYPE_JSON (by decide) (by decide) (by decide) (Or.inl rfl)
    (by decide)

/-! ## C4 — chunk accumulation is last-wins, not first-wins -/

/-- Concrete container for the C4 counterexample: two JSON-typed chunks,
the first with payload `true`, the second with payload `1234` (both valid
JSON so the source's `JSON.parse` succeeds on each). -/
def c4Bytes : List Nat :=
  [0x67, 0x6C, 0x54, 0x46, 2, 0, 0, 0, 36, 0, 0, 0,
   4, 0, 0, 0, 74, 83, 79, 78, 116, 114, 117, 101,
   4, 0, 0, 0, 74, 83, 79, 78, 49, 50, 51, 52]

/-- Concrete container holding one JSON chunk (`true`, bytes 12–24) and
two binary-type chunks: the first with payload `[10, 11]` at bytes 32–34,
the second with payload `[12, 13]` at bytes 42–44. -/
def c4bBytes : List Nat :=
  [0x67, 0x6C, 0x54, 0x46, 2, 0, 0, 0, 44, 0, 0, 0,
   4, 0, 0, 0, 74, 83, 79, 78, 116, 114, 117, 101,
   2, 0, 0, 0, 66, 73, 78, 0, 10, 11,
   2, 0, 0, 0, 66, 73, 78, 0, 12, 13]

/-- **C4, counterexample.**  On a container holding two document-type
chunks, `parseGLB` returns the *second* chunk's content (`1234`), not the
first chunk's (`true`); and on a container holding two binary-type
chunks, it returns the view of the *second* binary chunk (payload bytes
42–44), not the first (bytes 32–34).  Chunk accumulation is last-wins for
both recognized types, refuting the claimed first-wins behaviour. -/
theorem C4_counterexample :
    (parseGLB c4Bytes = .ok ([49, 50, 51, 52], none) ∧
      ([49, 50, 51, 52] : List Nat) ≠ [116, 114, 117, 101]) ∧
    (parseGLB c4bBytes =
        .ok ([116, 114, 117, 101], some ⟨c4bBytes, 42, 2⟩) ∧
      (⟨c4bBytes, 42, 2⟩ : ByteView) ≠ ⟨c4bBytes, 32, 2⟩) := by
  refine ⟨⟨?_, by decide⟩, ⟨?_, by decide⟩⟩
  · simp [parseGLB, scanChunks, readU32, subarray, c4Bytes,
      GLB_MAGIC, CHUNK_TYPE_JSON, CHUNK_TYPE_BIN]
    all_goals decide
  · simp [parseGLB, scanChunks, readU32, subarray, c4bBytes,
      GLB_MAGIC, CHUNK_TYPE_JSON, CHUNK_TYPE_BIN]
    all_goals decide

/-- **C4 (amended).**  The chunk loop of `parseGLB` keeps the **last**
chunk of each recognized type: a document-type chunk overwrites whatever
document accumulator was previously held, and a binary-type chunk
overwrites whatever binary accumulator was previously held, regardless of
their values; a chunk of unknown type is skipped by advancing exactly
`8 + declared length` bytes without touching either accumulator. -/
theorem C4_last_wins_and_skip_unknown
    (bytes : List Nat) (tl off : Nat) (json : Option (List Nat))
    (bin : Option ByteView) (len ty : Nat)
    (hlt : off < tl)
    (hlen : readU32 bytes off = some len)
    (hty : readU32 bytes (off + 4) = some ty) :
    (∀ payload, ty = CHUNK_TYPE_JSON →
      subarray bytes (off + 8) len = some payload →
      scanChunks bytes tl off json bin =
        scanChunks bytes tl (off + 8 + len) (some payload) bin) ∧
    (ty = CHUNK_TYPE_BIN → off + 8 + len ≤ bytes.length →
      scanChunks bytes tl off json bin =
        scanChunks bytes tl (off + 8 + len) json
          (some ⟨bytes, off + 8, len⟩)) ∧
    (ty ≠ CHUNK_TYPE_JSON → ty ≠ CHUNK_TYPE_BIN →
      scanChunks bytes tl off json bin =
        scanChunks bytes tl (off + 8 + len) json bin) := by
  refine ⟨?_, ?_, ?_⟩
  · intro payload hjson hsub
    rw [scanChunks]
    simp [hlt, hlen, hty, hjson, hsub]
  · intro hbin hbound
    rw [scanChunks]
    simp [hlt, hlen, hty, hbin, hbound, CHUNK_TYPE_JSON, CHUNK_TYPE_BIN]
  · intro hj hb
    rw [scanChunks]
    simp [hlt, hlen, hty, hj, hb]

/-- Buffer whose chunk at offset 12 declares length 100 with the unknown
type tag `0`. -/
def c4wBytes : List Nat :=
  [0, 0, 0, 0, 0, 0, 0, 0, 0, 0, 0, 0, 100, 0, 0, 0, 0, 0, 0, 0]

/-- Witness for `C4_last_wins_and_skip_unknown`: on `c4Bytes` the first
JSON chunk's payload overwrites any previously held document accumulator;
on `c4bBytes` the binary chunk at offset 24 overwrites any previously
held binary accumulator; and on a buffer whose first chunk type is
unknown (`0`), the loop just skips `8 + 100` bytes. -/
theorem C4_last_wins_and_skip_unknown_witness :
    (scanChunks c4Bytes 36 12 (some [7]) none =
      scanChunks c4Bytes 36 24 (some [116, 114, 117, 101]) none) ∧
    (scanChunks c4bBytes 44 24 (some [1]) (some ⟨[9], 0, 1⟩) =
      scanChunks c4bBytes 44 34 (some [1]) (some ⟨c4bBytes, 32, 2⟩)) ∧
    (scanChunks c4wBytes 13 12 (some [1]) none =
      scanChunks c4wBytes 13 120 (some [1]) none) := by
  refine ⟨?_, ?_, ?_⟩
  · exact (C4_last_wins_and_skip_unknown c4Bytes 36 12 (some [7]) none 4
      CHUNK_TYPE_JSON (by decide) (by decide) (by decide)).1
      [116, 114, 117, 101] rfl (by decide)
  · exact (C4_last_wins_and_skip_unknown c4bBytes 44 24 (some [1])
      (some ⟨[9], 0, 1⟩) 2 CHUNK_TYPE_BIN (by decide) (by decide)
      (by decide)).2.1 rfl (by decide)
  · exact (C4_last_wins_and_skip_unknown c4wBytes 13 12 (some [1]) none 100
      0 (by decide) (by decide) (by decide)).2.2 (by decide) (by decide)

/-! ## Helper lemmas for the tightly-packed `readAccessor` paths -/

/-- Reading byte `p` of the slice `((l.drop s).take t)` is reading byte
`s + p` of `l`, provided the slice really holds index `p`. -/
theorem getElem?_take_drop (l : List Nat) (s t p : Nat) (h1 : p < t) :
    ((l.drop s).take t)[p]? = l[s + p]? := by
  rw [List.getElem?_take_of_lt h1, List.getElem?_drop]

/-- Decoding a component out of a fresh copy of the byte range agrees with
decoding it in place, for every supported component type. -/
theorem decodeAt_take_drop (ct sz : Nat) (hsz : componentSize ct = some sz)
    (l : List Nat) (s t p : Nat) (hp : p + sz ≤ t) :
    decodeAt ct ((l.drop s).take t) p = decodeAt ct l (s + p) := by
  have g0 : 1 ≤ sz → ((l.drop s).take t)[p]? = l[s + p]? :=
    fun h => getElem?_take_drop l s t p (by omega)
  have g1 : 2 ≤ sz → ((l.drop s).take t)[p+1]? = l[s + p + 1]? := by
    intro h
    have := getElem?_take_drop l s t (p+1) (by omega)
    simpa [← Nat.add_assoc] using this
  have g2 : 4 ≤ sz → ((l.drop s).take t)[p+2]? = l[s + p + 2]? := by
    intro h
    have := getElem?_take_drop l s t (p+2) (by omega)
    simpa [← Nat.add_assoc] using this
  have g3 : 4 ≤ sz → ((l.drop s).take t)[p+3]? = l[s + p + 3]? := by
    intro h
    have := getElem?_take_drop l s t (p+3) (by omega)
    simpa [← Nat.add_assoc] using this
  by_cases h0 : ct = 5120
  · subst h0
    simp [componentSize] at hsz
    subst hsz
    simp [decodeAt, g0]
  · by_cases h1 : ct = 5121
    · subst h1
      simp [componentSize] at hsz
      subst hsz
      simp [decodeAt, g0]
    · by_cases h2 : ct = 5122
      · subst h2
        simp [componentSize] at hsz
        subst hsz
        simp [decodeAt, g0 (by omega), g1 (by omega)]
      · by_cases h3 : ct = 5123
        · subst h3
          simp [componentSize] at hsz
          subst hsz
          simp [decodeAt, g0 (by omega), g1 (by omega)]
        · by_cases h4 : ct = 5125
          · subst h4
            simp [componentSize] at hsz
            subst hsz
            simp [decodeAt, g0 (by omega), g1 (by omega), g2 (by omega),
              g3 (by omega)]
          · by_cases h5 : ct = 5126
            · subst h5
              simp [componentSize] at hsz
              subst hsz
              simp [decodeAt, g0 (by omega), g1 (by omega), g2 (by omega),
                g3 (by omega)]
            · simp [componentSize, h0, h1, h2, h3, h4, h5] at hsz

section TightPath

variable (g : Gltf) (bin : ByteView) (i : Nat) (a : Accessor)
  (sz nc bvi : Nat) (bv : BufferView)

/-- The AR tight path on an in-chunk region: the clamped copy is exactly
`totalBytes` long, so the typed-array reinterpretation of the fresh copy
succeeds — with no alignment requirement — and no warning is emitted. -/
theorem AR.readAccessor_tight_ok_ar
    (ha : g.accessors.get? i = some a)
    (hsz : componentSize a.componentType = some sz)
    (hnc : typeSize a.type = some nc)
    (hbvi : a.bufferView = some bvi)
    (hbv : g.bufferViews.get? bvi = some bv)
    (hst : bv.byteStride.getD 0 = 0 ∨ bv.byteStride.getD 0 = sz * nc)
    (hbound : bv.byteOffset.getD 0 + a.byteOffset.getD 0
      + a.count * nc * sz ≤ bin.len)
    (hwf : bin.off + bin.len ≤ bin.buf.length) :
    AR.readAccessor g bin i = .ok ⟨(List.range (a.count * nc)).map fun k =>
      decodeAt a.componentType
        ((bin.buf.drop
            (bin.off + (bv.byteOffset.getD 0 + a.byteOffset.getD 0))).take
          (a.count * nc * sz))
        (k * sz), false⟩ := by
  have hnw : ¬ (bin.len < bv.byteOffset.getD 0 + a.byteOffset.getD 0
      + a.count * nc * sz) := by omega
  have hs1 : min (bv.byteOffset.getD 0 + a.byteOffset.getD 0) bin.len
      = bv.byteOffset.getD 0 + a.byteOffset.getD 0 := by omega
  have hs2 : min (bv.byteOffset.getD 0 + a.byteOffset.getD 0
        + a.count * nc * sz) bin.len
      = bv.byteOffset.getD 0 + a.byteOffset.getD 0 + a.count * nc * sz := by
    omega
  simp only [AR.readAccessor, ha, hsz, hnc, hbvi, Option.some_bind, hbv,
    if_pos hst, hs1, hs2, Nat.add_sub_cancel_left, hnw, decide_eq_false_iff_not,
    not_false_iff]
  rw [if_neg]
  · simp [hnw]
  · have : ((bin.buf.drop
        (bin.off + (bv.byteOffset.getD 0 + a.byteOffset.getD 0))).take
        (a.count * nc * sz)).length = a.count * nc * sz := by
      rw [List.length_take, List.length_drop]
      omega
    omega

/-- The MV tight path on an aligned, in-buffer region: the in-place
typed-array view succeeds and decodes the source bytes at the absolute
offset. -/
theorem MV.readAccessor_tight_ok_mv
    (ha : g.accessors.get? i = some a)
    (hsz : componentSize a.componentType = some sz)
    (hnc : typeSize a.type = some nc)
    (hbvi : a.bufferView = some bvi)
    (hbv : g.bufferViews.get? bvi = some bv)
    (hst : bv.byteStride.getD 0 = 0 ∨ bv.byteStride.getD 0 = sz * nc)
    (halign : (bin.off + (bv.byteOffset.getD 0 + a.byteOffset.getD 0)) % sz
      = 0)
    (hbound : bv.byteOffset.getD 0 + a.byteOffset.getD 0
      + a.count * nc * sz ≤ bin.len)
    (hwf : bin.off + bin.len ≤ bin.buf.length) :
    MV.readAccessor g bin i = .ok ((List.range (a.count * nc)).map fun k =>
      decodeAt a.componentType bin.buf
        (bin.off + (bv.byteOffset.getD 0 + a.byteOffset.getD 0) + k * sz)) := by
  have hb : ¬ (bin.buf.length <
      bin.off + (bv.byteOffset.getD 0 + a.byteOffset.getD 0)
      + a.count * nc * sz) := by omega
  simp only [MV.readAccessor, ha, hsz, hnc, hbvi, Option.some_bind, hbv,
    if_pos hst, halign]
  simp [hb]

/-- The MV tight path raises a `RangeError` whenever the absolute byte
offset is not a multiple of the component width — observable evidence that
it reinterprets the source bytes in place rather than copying them. -/
theorem MV.readAccessor_tight_misaligned
    (ha : g.accessors.get? i = some a)
    (hsz : componentSize a.componentType = some sz)
    (hnc : typeSize a.type = some nc)
    (hbvi : a.bufferView = some bvi)
    (hbv : g.bufferViews.get? bvi = some bv)
    (hst : bv.byteStride.getD 0 = 0 ∨ bv.byteStride.getD 0 = sz * nc)
    (halign : (bin.off + (bv.byteOffset.getD 0 + a.byteOffset.getD 0)) % sz
      ≠ 0) :
    MV.readAccessor g bin i = .error .rangeError := by
  simp only [MV.readAccessor, ha, hsz, hnc, hbvi, Option.some_bind, hbv,
    if_pos hst]
  simp [halign]

end TightPath

/-! ## C3 — copy-then-reinterpret vs in-place view on the tight path -/

/-- Document with one float scalar accessor at byte offset 2 (not a
multiple of 4) whose 4-byte region lies entirely inside the 8-byte
payload. -/
def c3cG : Gltf :=
  ⟨[⟨some 0, 5126, "SCALAR", 1, some 2⟩], [⟨some 0, none⟩],
   none, none, none, none, none⟩

def c3cBin : ByteView := ⟨[0, 0, 0, 0, 0, 0, 0, 0], 0, 8⟩

/-- **C3, counterexample.**  On a tightly-packed float accessor whose
4-byte region lies fully inside the payload but starts at the misaligned
absolute offset 2, the ModelViewer `readAccessor` fails with the
`RangeError` of the in-place typed-array view construction — a copying
implementation (such as the AR version, which succeeds on the same input)
could not fail here.  This refutes the claim that (both copies of)
`readAccessor` copy the byte range into a fresh buffer and never
reinterpret the source bytes in place. -/
theorem C3_counterexample :
    MV.readAccessor c3cG c3cBin 0 = .error .rangeError ∧
      AR.readAccessor c3cG c3cBin 0 = .ok ⟨[0], false⟩ := by
  constructor
  · decide
  · norm_num [AR.readAccessor, c3cG, c3cBin, componentSize, typeSize,
      decodeAt, f32FromBits, List.range_succ]

/-- **C3 (amended).**  Only the AR copy of `readAccessor` implements the
copy-then-reinterpret discipline: on a tightly-packed accessor whose
region fits inside the chunk it succeeds with the values decoded from a
fresh copy of the byte range, with no alignment requirement on the
absolute offset and no warning.  The ModelViewer copy instead creates a
typed-array view in place on the source buffer, and accordingly fails with
a `RangeError` whenever the absolute byte offset is not a multiple of the
component width. -/
theorem C3_tight_path_copy_vs_view
    (g : Gltf) (bin : ByteView) (i : Nat) (a : Accessor)
    (sz nc bvi : Nat) (bv : BufferView)
    (ha : g.accessors.get? i = some a)
    (hsz : componentSize a.componentType = some sz)
    (hnc : typeSize a.type = some nc)
    (hbvi : a.bufferView = some bvi)
    (hbv : g.bufferViews.get? bvi = some bv)
    (hst : bv.byteStride.getD 0 = 0 ∨ bv.byteStride.getD 0 = sz * nc) :
    (bv.byteOffset.getD 0 + a.byteOffset.getD 0 + a.count * nc * sz ≤ bin.len →
     bin.off + bin.len ≤ bin.buf.length →
     AR.readAccessor g bin i = .ok ⟨(List.range (a.count * nc)).map fun k =>
       decodeAt a.componentType
         ((bin.buf.drop
             (bin.off + (bv.byteOffset.getD 0 + a.byteOffset.getD 0))).take
           (a.count * nc * sz)) (k * sz), false⟩) ∧
    ((bin.off + (bv.byteOffset.getD 0 + a.byteOffset.getD 0)) % sz ≠ 0 →
     MV.readAccessor g bin i = .error .rangeError) :=
  ⟨fun hb hw =>
    AR.readAccessor_tight_ok_ar g bin i a sz nc bvi bv ha hsz hnc hbvi hbv hst
      hb hw,
   fun hal =>
    MV.readAccessor_tight_misaligned g bin i a sz nc bvi bv ha hsz hnc hbvi
      hbv hst hal⟩

/-- Document with one float scalar accessor at byte offset 1 over a
payload view starting at byte 1 of a 6-byte buffer (absolute offset 2,
misaligned; region 1–5 inside the 5-byte chunk). -/
def c3wG : Gltf :=
  ⟨[⟨some 0, 5126, "SCALAR", 1, some 1⟩], [⟨some 0, none⟩],
   none, none, none, none, none⟩

def c3wBin : ByteView := ⟨[9, 9, 0, 0, 0, 0], 1, 5⟩

/-- Witness for `C3_tight_path_copy_vs_view` at `c3wG` / `c3wBin`. -/
theorem C3_tight_path_copy_vs_view_witness :
    AR.readAccessor c3wG c3wBin 0 = .ok ⟨[0], false⟩ ∧
      MV.readAccessor c3wG c3wBin 0 = .error .rangeError := by
  constructor
  · have h := (C3_tight_path_copy_vs_view c3wG c3wBin 0
      ⟨some 0, 5126, "SCALAR", 1, some 1⟩ 4 1 0 ⟨some 0, none⟩
      (by decide) (by decide) (by decide) (by decide) (by decide)
      (Or.inl (by decide))).1 (by decide) (by decide)
    rw [h]
    norm_num [c3wBin, decodeAt, f32FromBits, List.range_succ]
  · exact (C3_tight_path_copy_vs_view c3wG c3wBin 0
      ⟨some 0, 5126, "SCALAR", 1, some 1⟩ 4 1 0 ⟨some 0, none⟩
      (by decide) (by decide) (by decide) (by decide) (by decide)
      (Or.inl (by decide))).2 (by decide)

/-! ## C10 — behavioural equivalence of the two `readAccessor` copies -/

/-- Document with one unsigned-short `VEC2` accessor at the misaligned
absolute byte offset 1, fully inside the 6-byte payload. -/
def c10cG : Gltf :=
  ⟨[⟨some 0, 5123, "VEC2", 1, some 1⟩], [⟨some 0, none⟩],
   none, none, none, none, none⟩

def c10cBin : ByteView := ⟨[1, 2, 3, 4, 5, 6], 0, 6⟩

/-- **C10, counterexample.**  On supported, tightly-packed data lying
fully inside the payload but at a misaligned absolute offset, the two
`readAccessor` copies are *not* behaviourally equivalent: the ModelViewer
version fails with a `RangeError` while the AR version returns the decoded
values. -/
theorem C10_counterexample :
    MV.readAccessor c10cG c10cBin 0 = .error .rangeError ∧
      AR.readAccessor c10cG c10cBin 0 = .ok ⟨[770, 1284], false⟩ := by
  constructor
  · decide
  · rw [AR.readAccessor_tight_ok_ar c10cG c10cBin 0
      ⟨some 0, 5123, "VEC2", 1, some 1⟩ 2 2 0 ⟨some 0, none⟩
      (by decide) (by decide) (by decide) (by decide) (by decide)
      (Or.inl (by decide)) (by decide) (by decide)]
    norm_num [c10cBin, decodeAt, List.range_succ]

/-- **C10 (amended).**  On supported, tightly-packed data whose region
lies fully inside the (well-formed) binary payload **and whose absolute
byte offset is aligned to the component width**, the two `readAccessor`
copies agree element-wise: the AR result is exactly the MV result paired
with the `false` warning flag. -/
theorem C10_readAccessor_equiv_aligned
    (g : Gltf) (bin : ByteView) (i : Nat) (a : Accessor)
    (sz nc bvi : Nat) (bv : BufferView)
    (ha : g.accessors.get? i = some a)
    (hsz : componentSize a.componentType = some sz)
    (hnc : typeSize a.type = some nc)
    (hbvi : a.bufferView = some bvi)
    (hbv : g.bufferViews.get? bvi = some bv)
    (hst : bv.byteStride.getD 0 = 0 ∨ bv.byteStride.getD 0 = sz * nc)
    (halign : (bin.off + (bv.byteOffset.getD 0 + a.byteOffset.getD 0)) % sz
      = 0)
    (hbound : bv.byteOffset.getD 0 + a.byteOffset.getD 0
      + a.count * nc * sz ≤ bin.len)
    (hwf : bin.off + bin.len ≤ bin.buf.length) :
    AR.readAccessor g bin i =
      (MV.readAccessor g bin i).map (fun vs => AR.ReadResult.mk vs false) := by
  rw [MV.readAccessor_tight_ok_mv g bin i a sz nc bvi bv ha hsz hnc hbvi hbv
      hst halign hbound hwf,
    AR.readAccessor_tight_ok_ar g bin i a sz nc bvi bv ha hsz hnc hbvi hbv
      hst hbound hwf]
  have hmap : (List.range (a.count * nc)).map (fun k =>
        decodeAt a.componentType
          ((bin.buf.drop
              (bin.off + (bv.byteOffset.getD 0 + a.byteOffset.getD 0))).take
            (a.count * nc * sz)) (k * sz))
      = (List.range (a.count * nc)).map (fun k =>
        decodeAt a.componentType bin.buf
          (bin.off + (bv.byteOffset.getD 0 + a.byteOffset.getD 0)
            + k * sz)) := by
    apply List.map_congr_left
    intro k hk
    have hk' : k + 1 ≤ a.count * nc := List.mem_range.mp hk
    have h1 : (k + 1) * sz ≤ a.count * nc * sz := Nat.mul_le_mul_right sz hk'
    have h2 : (k + 1) * sz = k * sz + sz := by ring
    exact decodeAt_take_drop a.componentType sz hsz bin.buf
      (bin.off + (bv.byteOffset.getD 0 + a.byteOffset.getD 0))
      (a.count * nc * sz) (k * sz) (by omega)
  rw [hmap]
  rfl

/-! ## C2 — the "clamp and zero-fill" bounds policy crashes on the tight
path

The AR `readAccessor` *documents* the clamping policy: it logs
`"...overflows binary chunk (...). Clamping."` and its tight path comments
promise "safe bounds" for the copied slice.  But after clamping the copy
to the available bytes it executes
`new COMPONENT_TYPES[ct].array(slice.buffer, 0, totalElements)`, which
throws a `RangeError` ("invalid typed array length") whenever the clamped
copy is shorter than `totalElements` elements — so on any overflowing
tightly-packed accessor the function crashes instead of returning the
promised zero-filled full-length array.  (The interleaved path does
implement the policy; the ModelViewer copy has no clamping at all and
fails on the same input through its in-place view.) -/

/-- Document with a tightly-packed float scalar accessor of count 2
(8 bytes needed) over a 4-byte payload. -/
def c2G : Gltf :=
  ⟨[⟨some 0, 5126, "SCALAR", 2, none⟩], [⟨some 0, none⟩],
   none, none, none, none, none⟩

def c2Bin : ByteView := ⟨[0, 0, 0, 0], 0, 4⟩

/-- **C2, evaluation at the failing input.**  On an overflowing
tightly-packed accessor both `readAccessor` copies throw a `RangeError`;
neither clamps, zero-fills, and returns a full-length array as the claim
(and the AR code's own `"Clamping."` diagnostic) promises. -/
theorem C2_tight_overflow_crashes :
    AR.readAccessor c2G c2Bin 0 = .error .rangeError ∧
      MV.readAccessor c2G c2Bin 0 = .error .rangeError := by
  constructor <;> decide

/-- Aligned float scalar accessor over a 4-byte payload. -/
def c10wG : Gltf :=
  ⟨[⟨some 0, 5126, "SCALAR", 1, none⟩], [⟨some 0, none⟩],
   none, none, none, none, none⟩

def c10wBin : ByteView := ⟨[0, 0, 0, 0], 0, 4⟩

/-- Witness for `C10_readAccessor_equiv_aligned` at `c10wG` / `c10wBin`. -/
theorem C10_readAccessor_equiv_aligned_witness :
    AR.readAccessor c10wG c10wBin 0 =
      (MV.readAccessor c10wG c10wBin 0).map
        (fun vs => AR.ReadResult.mk vs false) :=
  C10_readAccessor_equiv_aligned c10wG c10wBin 0
    ⟨some 0, 5126, "SCALAR", 1, none⟩ 4 1 0 ⟨some 0, none⟩
    (by decide) (by decide) (by decide) (by decide) (by decide)
    (Or.inl (by decide)) (by decide) (by decide) (by decide)

/-! ## C5 — unsupported component types abort the whole build -/

/-- An unsupported component type makes `readAccessor` throw before
touching any bytes (MV version). -/
theorem MV.readAccessor_unsupported_ct (g : Gltf) (bin : ByteView) (i : Nat)
    (a : Accessor) (ha : g.accessors.get? i = some a)
    (hsz : componentSize a.componentType = none) :
    MV.readAccessor g bin i = .error (.unsupportedComponentType
      a.componentType) := by
  simp only [MV.readAccessor, ha, hsz]

/-- Document whose primitive references a float `VEC3` position accessor
and a `NORMAL` accessor with the unsupported component type 9999. -/
def c5cG : Gltf :=
  ⟨[⟨some 0, 5126, "VEC3", 1, none⟩, ⟨some 0, 9999, "VEC3", 1, none⟩],
   [⟨some 0, none⟩],
   some [⟨[⟨⟨some 0, some 1, none, none⟩, none, none⟩]⟩],
   none, none, none, none⟩

def c5cPrim : Primitive := ⟨⟨some 0, some 1, none, none⟩, none, none⟩

def c5cBin : ByteView :=
  ⟨[0, 0, 0, 0, 0, 0, 0, 0, 0, 0, 0, 0], 0, 12⟩

/-- Document whose primitive's *position* accessor has the unsupported
component type 9997. -/
def c5cG2 : Gltf :=
  ⟨[⟨some 0, 9997, "VEC3", 1, none⟩], [⟨some 0, none⟩],
   some [⟨[⟨⟨some 0, none, none, none⟩, none, none⟩]⟩],
   none, none, none, none⟩

def c5cPrim2 : Primitive := ⟨⟨some 0, none, none, none⟩, none, none⟩

/-- **C5, counterexample.**  An unsupported component type on the
*normal* (non-position) attribute does not make composition succeed with
the attribute omitted: `buildPrimitive` throws, and the error propagates
through `buildSceneFromGLTF`, failing the whole parse.  Likewise, an
unsupported component type on the *position* attribute does not merely
omit the affected primitive: it fails the whole build the same way. -/
theorem C5_counterexample :
    (MV.buildPrimitive c5cG (some c5cBin) c5cPrim =
        .error (.unsupportedComponentType 9999) ∧
      errOf (MV.buildSceneF 1 c5cG (some c5cBin)) =
        some (.unsupportedComponentType 9999)) ∧
    (MV.buildPrimitive c5cG2 (some c5cBin) c5cPrim2 =
        .error (.unsupportedComponentType 9997) ∧
      errOf (MV.buildSceneF 1 c5cG2 (some c5cBin)) =
        some (.unsupportedComponentType 9997)) := by
  refine ⟨⟨?_, ?_⟩, ?_, ?_⟩ <;> decide

/-- **C5 (amended).**  An unsupported component type on *any* referenced
attribute aborts the whole primitive build with `unsupportedComponentType`
(which propagates to the caller and fails the entire composition): this
holds for the normal, texture-coordinate and color attributes (each shown
with a readable position attribute present) and for the position
attribute itself.  Only a primitive *missing* its position attribute is
skipped (`none`, with a logged warning) without failing the build. -/
theorem C5_unsupported_ct_aborts_build :
    (∀ (g : Gltf) (bin : ByteView) (p : Primitive) (posIdx : Nat)
       (posVals : List ℚ) (ni : Nat) (na : Accessor),
      p.attributes.POSITION = some posIdx →
      MV.readAccessor g bin posIdx = .ok posVals →
      p.attributes.NORMAL = some ni →
      g.accessors.get? ni = some na →
      componentSize na.componentType = none →
      MV.buildPrimitive g (some bin) p =
        .error (.unsupportedComponentType na.componentType)) ∧
    (∀ (g : Gltf) (bin : ByteView) (p : Primitive) (posIdx : Nat)
       (posVals : List ℚ) (ti : Nat) (ta : Accessor),
      p.attributes.POSITION = some posIdx →
      MV.readAccessor g bin posIdx = .ok posVals →
      p.attributes.NORMAL = none →
      p.attributes.TEXCOORD_0 = some ti →
      g.accessors.get? ti = some ta →
      componentSize ta.componentType = none →
      MV.buildPrimitive g (some bin) p =
        .error (.unsupportedComponentType ta.componentType)) ∧
    (∀ (g : Gltf) (bin : ByteView) (p : Primitive) (posIdx : Nat)
       (posVals : List ℚ) (ci : Nat) (ca : Accessor),
      p.attributes.POSITION = some posIdx →
      MV.readAccessor g bin posIdx = .ok posVals →
      p.attributes.NORMAL = none →
      p.attributes.TEXCOORD_0 = none →
      p.attributes.COLOR_0 = some ci →
      g.accessors.get? ci = some ca →
      componentSize ca.componentType = none →
      MV.buildPrimitive g (some bin) p =
        .error (.unsupportedComponentType ca.componentType)) ∧
    (∀ (g : Gltf) (bin : ByteView) (p : Primitive) (posIdx : Nat)
       (pa : Accessor),
      p.attributes.POSITION = some posIdx →
      g.accessors.get? posIdx = some pa →
      componentSize pa.componentType = none →
      MV.buildPrimitive g (some bin) p =
        .error (.unsupportedComponentType pa.componentType)) ∧
    (∀ (g : Gltf) (bin : ByteView) (p : Primitive),
      p.attributes.POSITION = none →
      MV.buildPrimitive g (some bin) p = .ok none) := by
  refine ⟨?_, ?_, ?_, ?_, ?_⟩
  · intro g bin p posIdx posVals ni na hpos hread hni hna hct
    simp only [MV.buildPrimitive, hpos, hread, hni,
      MV.readAccessor_unsupported_ct g bin ni na hna hct, Except.map]
  · intro g bin p posIdx posVals ti ta hpos hread hnorm htex hta hct
    simp only [MV.buildPrimitive, hpos, hread, hnorm, htex,
      MV.readAccessor_unsupported_ct g bin ti ta hta hct, Except.map]
  · intro g bin p posIdx posVals ci ca hpos hread hnorm htex hcol hca hct
    simp only [MV.buildPrimitive, hpos, hread, hnorm, htex, hcol,
      MV.readAccessor_unsupported_ct g bin ci ca hca hct, Except.map]
  · intro g bin p posIdx pa hpos hpa hct
    simp only [MV.buildPrimitive, hpos,
      MV.readAccessor_unsupported_ct g bin posIdx pa hpa hct]
  · intro g bin p hpos
    simp only [MV.buildPrimitive, hpos]

/-- Document with a readable float position accessor (index 0) and
accessors with the unsupported component types 9998, 9997, 9996 and 9995
(indices 1–4), to be referenced as normal, texture-coordinate, color and
position attributes respectively. -/
def c5wG : Gltf :=
  ⟨[⟨some 0, 5126, "VEC3", 1, none⟩,
    ⟨some 0, 9998, "VEC3", 1, none⟩,
    ⟨some 0, 9997, "VEC2", 1, none⟩,
    ⟨some 0, 9996, "VEC4", 1, none⟩,
    ⟨some 0, 9995, "VEC3", 1, none⟩],
   [⟨some 0, none⟩], none, none, none, none, none⟩

def c5wPrim : Primitive := ⟨⟨some 0, some 1, none, none⟩, none, none⟩

def c5wPrim2 : Primitive := ⟨⟨none, some 0, none, none⟩, none, none⟩

def c5wPrim3 : Primitive := ⟨⟨some 0, none, some 2, none⟩, none, none⟩

def c5wPrim4 : Primitive := ⟨⟨some 0, none, none, some 3⟩, none, none⟩

def c5wPrim5 : Primitive := ⟨⟨some 4, none, none, none⟩, none, none⟩

def c5wBin : ByteView :=
  ⟨[0, 0, 0, 0, 0, 0, 0, 0, 0, 0, 0, 0], 0, 12⟩

/-- Witness for `C5_unsupported_ct_aborts_build` at `c5wG`: one primitive
per part — unsupported normal, texture-coordinate, color and position
component types all abort the build, while a missing position attribute
skips the primitive. -/
theorem C5_unsupported_ct_aborts_build_witness :
    MV.buildPrimitive c5wG (some c5wBin) c5wPrim =
      .error (.unsupportedComponentType 9998) ∧
    MV.buildPrimitive c5wG (some c5wBin) c5wPrim3 =
      .error (.unsupportedComponentType 9997) ∧
    MV.buildPrimitive c5wG (some c5wBin) c5wPrim4 =
      .error (.unsupportedComponentType 9996) ∧
    MV.buildPrimitive c5wG (some c5wBin) c5wPrim5 =
      .error (.unsupportedComponentType 9995) ∧
    MV.buildPrimitive c5wG (some c5wBin) c5wPrim2 = .ok none := by
  have hread := MV.readAccessor_tight_ok_mv c5wG c5wBin 0
    ⟨some 0, 5126, "VEC3", 1, none⟩ 4 3 0 ⟨some 0, none⟩
    (by decide) (by decide) (by decide) (by decide) (by decide)
    (Or.inl (by decide)) (by decide) (by decide) (by decide)
  refine ⟨?_, ?_, ?_, ?_, ?_⟩
  · exact C5_unsupported_ct_aborts_build.1 c5wG c5wBin c5wPrim 0 _ 1
      ⟨some 0, 9998, "VEC3", 1, none⟩ (by decide) hread
      (by decide) (by decide) (by decide)
  · exact C5_unsupported_ct_aborts_build.2.1 c5wG c5wBin c5wPrim3 0 _ 2
      ⟨some 0, 9997, "VEC2", 1, none⟩ (by decide) hread
      (by decide) (by decide) (by decide) (by decide)
  · exact C5_unsupported_ct_aborts_build.2.2.1 c5wG c5wBin c5wPrim4 0 _ 3
      ⟨some 0, 9996, "VEC4", 1, none⟩ (by decide) hread
      (by decide) (by decide) (by decide) (by decide) (by decide)
  · exact C5_unsupported_ct_aborts_build.2.2.2.1 c5wG c5wBin c5wPrim5 4
      ⟨some 0, 9995, "VEC3", 1, none⟩ (by decide) (by decide) (by decide)
  · exact C5_unsupported_ct_aborts_build.2.2.2.2 c5wG c5wBin c5wPrim2
      (by decide)

/-! ## C6 — no cycle detection: `processNode` diverges on cyclic graphs -/

/-- A mesh-less node that lists itself first among its children defeats
every finite recursion budget (ModelViewer version): there is no visited
set, so the recursion never returns (and no `CyclicNodeGraph` error
exists anywhere in the code). -/
theorem MV.processNode_selfloop_diverges_mv (g : Gltf) (bin : Option ByteView)
    (i : Nat) (ns : List NodeDef) (node : NodeDef) (rest : List Nat)
    (hn : g.nodes = some ns) (hi : ns.get? i = some node)
    (hm : node.mesh = none) (hc : node.children = some (i :: rest)) :
    ∀ fuel, MV.processNodeF fuel g bin i = .error .fuelExhausted := by
  intro fuel
  induction fuel with
  | zero => simp [MV.processNodeF]
  | succ fuel ih =>
    rw [MV.processNodeF]
    simp only [hn, hi, hm, hc, List.foldlM_cons, ih, Bind.bind, Except.bind]

/-- Same as `MV.processNode_selfloop_diverges_mv` for the (identical) AR
version. -/
theorem AR.processNode_selfloop_diverges_ar (g : Gltf) (bin : Option ByteView)
    (i : Nat) (ns : List NodeDef) (node : NodeDef) (rest : List Nat)
    (hn : g.nodes = some ns) (hi : ns.get? i = some node)
    (hm : node.mesh = none) (hc : node.children = some (i :: rest)) :
    ∀ fuel, AR.processNodeF fuel g bin i = .error .fuelExhausted := by
  intro fuel
  induction fuel with
  | zero => simp [AR.processNodeF]
  | succ fuel ih =>
    rw [AR.processNodeF]
    simp only [hn, hi, hm, hc, List.foldlM_cons, ih, Bind.bind, Except.bind]

/-- Document whose node 0 lists itself as its first child: a cycle
reachable from the scene roots. -/
def cyclicG : Gltf :=
  ⟨[], [], some [⟨[]⟩], none,
   some [⟨none, none, none, none, none, some [0]⟩],
   some [⟨some [0]⟩], none⟩

/-- `processNode` (ModelViewer) exhausts *every* finite recursion budget
on this input — the fuel-indexed embedding of non-termination. -/
def processNodeDivergesMV (g : Gltf) (bin : Option ByteView) (i : Nat) :
    Prop :=
  ∀ fuel, MV.processNodeF fuel g bin i = .error .fuelExhausted

/-- `processNode` (AR) exhausts every finite recursion budget. -/
def processNodeDivergesAR (g : Gltf) (bin : Option ByteView) (i : Nat) :
    Prop :=
  ∀ fuel, AR.processNodeF fuel g bin i = .error .fuelExhausted

/-- **C6, counterexample.**  On the cyclic document `cyclicG` (node 0 is
its own child, reachable from the selected scene's roots), `processNode`
does not fail with a detectable `CyclicNodeGraph` error — no such error
exists in the code — and does not terminate: both copies exhaust every
recursion budget. -/
theorem C6_counterexample :
    processNodeDivergesMV cyclicG none 0 ∧
      processNodeDivergesAR cyclicG none 0 :=
  ⟨MV.processNode_selfloop_diverges_mv cyclicG none 0
      [⟨none, none, none, none, none, some [0]⟩]
      ⟨none, none, none, none, none, some [0]⟩ []
      (by decide) (by decide) (by decide) (by decide),
   AR.processNode_selfloop_diverges_ar cyclicG none 0
      [⟨none, none, none, none, none, some [0]⟩]
      ⟨none, none, none, none, none, some [0]⟩ []
      (by decide) (by decide) (by decide) (by decide)⟩

/-- **C6 (amended).**  `processNode` performs no cycle detection and never
produces a `CyclicNodeGraph` error: in both copies, a mesh-less node that
lists itself first among its children makes the recursion run forever
(every finite recursion budget ends in the out-of-fuel marker of the
embedding, for arbitrary documents of that shape). -/
theorem C6_no_cycle_detection :
    (∀ (g : Gltf) (bin : Option ByteView) (i : Nat) (ns : List NodeDef)
       (node : NodeDef) (rest : List Nat),
      g.nodes = some ns → ns.get? i = some node → node.mesh = none →
      node.children = some (i :: rest) →
      ∀ fuel, MV.processNodeF fuel g bin i = .error .fuelExhausted) ∧
    (∀ (g : Gltf) (bin : Option ByteView) (i : Nat) (ns : List NodeDef)
       (node : NodeDef) (rest : List Nat),
      g.nodes = some ns → ns.get? i = some node → node.mesh = none →
      node.children = some (i :: rest) →
      ∀ fuel, AR.processNodeF fuel g bin i = .error .fuelExhausted) :=
  ⟨fun g bin i ns node rest hn hi hm hc =>
    MV.processNode_selfloop_diverges_mv g bin i ns node rest hn hi hm hc,
   fun g bin i ns node rest hn hi hm hc =>
    AR.processNode_selfloop_diverges_ar g bin i ns node rest hn hi hm hc⟩

/-- Witness for `C6_no_cycle_detection` at `cyclicG` with budget 9. -/
theorem C6_no_cycle_detection_witness :
    MV.processNodeF 9 cyclicG none 0 = .error .fuelExhausted ∧
      AR.processNodeF 9 cyclicG none 0 = .error .fuelExhausted :=
  ⟨C6_no_cycle_detection.1 cyclicG none 0
      [⟨none, none, none, none, none, some [0]⟩]
      ⟨none, none, none, none, none, some [0]⟩ []
      (by decide) (by decide) (by decide) (by decide) 9,
   C6_no_cycle_detection.2 cyclicG none 0
      [⟨none, none, none, none, none, some [0]⟩]
      ⟨none, none, none, none, none, some [0]⟩ []
      (by decide) (by decide) (by decide) (by decide) 9⟩

/-! ## C8 — empty composition: distinct error vs empty success -/

/-- The primitive loop leaves the accumulator untouched when every
primitive lacks a position attribute (each is skipped as `none`). -/
theorem MV.foldPrims_skip (g : Gltf) (bv : ByteView)
    (prims : List Primitive) (acc : List BuiltObj)
    (h : ∀ p ∈ prims, p.attributes.POSITION = none) :
    prims.foldlM (fun acc2 prim => do
        let m ← MV.buildPrimitive g (some bv) prim
        pure (acc2 ++ m.toList.map BuiltObj.mesh)) acc = .ok acc := by
  induction prims generalizing acc with
  | nil => rfl
  | cons p ps ih =>
    have hp : p.attributes.POSITION = none := h p (by simp)
    have hbp : MV.buildPrimitive g (some bv) p = .ok none := by
      simp only [MV.buildPrimitive, hp]
    rw [List.foldlM_cons]
    simp only [hbp, Bind.bind, Except.bind, Option.toList, List.map_nil,
      List.append_nil, pure, Except.pure]
    exact ih acc fun q hq => h q (by simp [hq])

/-- The mesh loop of the fallback path leaves the accumulator untouched
when every primitive of every mesh lacks a position attribute. -/
theorem MV.foldMeshes_skip (g : Gltf) (bv : ByteView)
    (meshes : List MeshDef) (acc : List BuiltObj)
    (h : ∀ m ∈ meshes, ∀ p ∈ m.primitives, p.attributes.POSITION = none) :
    meshes.foldlM (fun acc meshDef =>
        meshDef.primitives.foldlM (fun acc2 prim => do
          let m ← MV.buildPrimitive g (some bv) prim
          pure (acc2 ++ m.toList.map BuiltObj.mesh)) acc) acc = .ok acc := by
  induction meshes generalizing acc with
  | nil => rfl
  | cons m ms ih =>
    rw [List.foldlM_cons]
    rw [MV.foldPrims_skip g bv m.primitives acc (h m (by simp))]
    simp only [Bind.bind, Except.bind]
    exact ih acc fun m' hm' p hp => h m' (by simp [hm']) p hp

/-- The whole ModelViewer build succeeds with an empty group when the
document declares meshes but every primitive lacks a position attribute
(and no node hierarchy is present): no `EmptyScene`-style condition is
raised anywhere in the ModelViewer pipeline. -/
theorem MV.buildScene_allSkipped (fuel : Nat) (g : Gltf) (bv : ByteView)
    (meshes : List MeshDef)
    (hn : g.nodes = none) (hm : g.meshes = some meshes)
    (hne : meshes.length ≠ 0)
    (hall : ∀ m ∈ meshes, ∀ p ∈ m.primitives,
      p.attributes.POSITION = none) :
    MV.buildSceneF fuel g (some bv) = .ok (.group idTransform []) := by
  simp only [MV.buildSceneF, hm, hn, if_neg hne]
  rw [MV.foldMeshes_skip g bv meshes [] hall]

/-- Document with one mesh whose only primitive has no attributes at
all (in particular, no position). -/
def c8cG : Gltf :=
  ⟨[], [], some [⟨[⟨⟨none, none, none, none⟩, none, none⟩]⟩],
   none, none, none, none⟩

def c8cBin : ByteView := ⟨[], 0, 0⟩

/-- **C8, counterexample.**  A container that parses but yields no
drawable primitives is *not* surfaced as a distinct `EmptyScene` error by
the ModelViewer pipeline: `buildSceneFromGLTF` returns an empty group as a
success (zero meshes), and the ModelViewer `loadModel` performs no
emptiness check afterwards. -/
theorem C8_counterexample :
    MV.buildSceneF 1 c8cG (some c8cBin) = .ok (.group idTransform []) ∧
      meshCount (.group idTransform []) = 0 := by
  constructor
  · exact MV.buildScene_allSkipped 1 c8cG c8cBin
      [⟨[⟨⟨none, none, none, none⟩, none, none⟩]⟩]
      (by decide) (by decide) (by decide) (by decide)
  · simp [meshCount, meshCountList]

/-- **C8 (amended).**  Only the AR call site surfaces an empty
composition as a distinct error: its `loadModel` counts the built meshes
and throws `'GLB parsing produced no renderable meshes'` when there are
none.  The ModelViewer pipeline has no such check: a document whose every
primitive lacks a position attribute builds to an empty group returned as
an ordinary success. -/
theorem C8_empty_scene_surfacing :
    (∀ (fuel : Nat) (g : Gltf) (bv : ByteView) (meshes : List MeshDef),
      g.nodes = none → g.meshes = some meshes → meshes.length ≠ 0 →
      (∀ m ∈ meshes, ∀ p ∈ m.primitives, p.attributes.POSITION = none) →
      MV.buildSceneF fuel g (some bv) = .ok (.group idTransform []) ∧
        meshCount (.group idTransform []) = 0) ∧
    (∀ obj : BuiltObj, meshCount obj = 0 →
      AR.checkRenderableMeshes obj = .error .noRenderableMeshes) := by
  constructor
  · intro fuel g bv meshes hn hm hne hall
    exact ⟨MV.buildScene_allSkipped fuel g bv meshes hn hm hne hall,
      by simp [meshCount, meshCountList]⟩
  · intro obj h
    simp [AR.checkRenderableMeshes, h]

/-- Document with two meshes: one position-less primitive and one empty
primitive list. -/
def c8wG : Gltf :=
  ⟨[], [],
   some [⟨[⟨⟨none, none, none, none⟩, none, none⟩]⟩, ⟨[]⟩],
   none, none, none, none⟩

def c8wBin : ByteView := ⟨[0], 0, 1⟩

/-- Witness for `C8_empty_scene_surfacing` at `c8wG`. -/
theorem C8_empty_scene_surfacing_witness :
    (MV.buildSceneF 3 c8wG (some c8wBin) = .ok (.group idTransform []) ∧
      meshCount (.group idTransform []) = 0) ∧
    AR.checkRenderableMeshes (.group idTransform []) =
      .error .noRenderableMeshes :=
  ⟨C8_empty_scene_surfacing.1 3 c8wG c8wBin
      [⟨[⟨⟨none, none, none, none⟩, none, none⟩]⟩, ⟨[]⟩]
      (by decide) (by decide) (by decide) (by decide),
   C8_empty_scene_surfacing.2 (.group idTransform [])
      (by simp [meshCount, meshCountList])⟩

/-! ## C9 — color component rescaling -/

/-- **C9 (confirmed).**  In both duplicated copies of `buildPrimitive`
(ModelViewerScreen and ARViewScreen): when a primitive with a `COLOR_0`
attribute builds successfully, the stored color array is the resolved
accessor data divided component-wise by 255 for unsigned 8-bit accessors
and by 65535 for unsigned 16-bit accessors, and passed through unchanged
for float accessors; in every case it has the same length as the resolved
accessor data.  (Rational arithmetic stands in for the float arithmetic
of the source.) -/
theorem C9_color_normalization :
    (∀ (g : Gltf) (bin : ByteView) (p : Primitive) (ci : Nat)
       (ca : Accessor) (cols : List ℚ) (prim : Prim),
      p.attributes.COLOR_0 = some ci →
      g.accessors.get? ci = some ca →
      MV.readAccessor g bin ci = .ok cols →
      MV.buildPrimitive g (some bin) p = .ok (some prim) →
      (ca.componentType = 5121 →
        prim.color = some (cols.map fun c => c / 255)) ∧
      (ca.componentType = 5123 →
        prim.color = some (cols.map fun c => c / 65535)) ∧
      (ca.componentType = 5126 → prim.color = some cols) ∧
      prim.color.map List.length = some cols.length) ∧
    (∀ (g : Gltf) (bin : ByteView) (p : Primitive) (ci : Nat)
       (ca : Accessor) (cols : List ℚ) (w : Bool) (prim : Prim),
      p.attributes.COLOR_0 = some ci →
      g.accessors.get? ci = some ca →
      AR.readAccessor g bin ci = .ok ⟨cols, w⟩ →
      AR.buildPrimitive g (some bin) p = .ok (some prim) →
      (ca.componentType = 5121 →
        prim.color = some (cols.map fun c => c / 255)) ∧
      (ca.componentType = 5123 →
        prim.color = some (cols.map fun c => c / 65535)) ∧
      (ca.componentType = 5126 → prim.color = some cols) ∧
      prim.color.map List.length = some cols.length) := by
  constructor
  · intro g bin p ci ca cols prim hci hacc hread hbuild
    simp only [MV.buildPrimitive, hci, hread, hacc] at hbuild
    iterate 10 (all_goals try split at hbuild)
    all_goals try (solve | (exfalso; simp at hbuild))
    all_goals
      simp only [Except.ok.injEq, Option.some.injEq] at hbuild
    all_goals subst hbuild
    all_goals
      exact ⟨fun h => by simp_all, fun h => by simp_all,
        fun h => by simp_all, by simp⟩
  · intro g bin p ci ca cols w prim hci hacc hread hbuild
    simp only [AR.buildPrimitive, hci, hread, hacc] at hbuild
    iterate 10 (all_goals try split at hbuild)
    all_goals try (solve | (exfalso; simp at hbuild))
    all_goals
      simp only [Except.ok.injEq, Option.some.injEq] at hbuild
    all_goals subst hbuild
    all_goals
      exact ⟨fun h => by simp_all, fun h => by simp_all,
        fun h => by simp_all, by simp⟩

/-- Document with a u8 scalar position accessor and a u8 `VEC4` color
accessor holding bytes 1,2,3,4. -/
def c9wG : Gltf :=
  ⟨[⟨some 0, 5121, "SCALAR", 1, none⟩, ⟨some 0, 5121, "VEC4", 1, some 1⟩],
   [⟨some 0, none⟩], none, none, none, none, none⟩

def c9wPrim : Primitive := ⟨⟨some 0, none, none, some 1⟩, none, none⟩

def c9wBin : ByteView := ⟨[7, 1, 2, 3, 4], 0, 5⟩

/-- The `THREE.Mesh` the ModelViewer `buildPrimitive` produces for
`c9wPrim`. -/
def c9wOut : Prim :=
  ⟨[7], none, none, some [1/255, 2/255, 3/255, 4/255], some 4, none, none,
   true,
   ⟨some (1/10), some (4/5), true, none, false, none, none, none, none,
    true⟩⟩

/-- The `THREE.Mesh` the AR `buildPrimitive` produces for `c9wPrim`
(the AR material defaults differ from the ModelViewer ones). -/
def c9wOutAR : Prim :=
  ⟨[7], none, none, some [1/255, 2/255, 3/255, 4/255], some 4, none, none,
   true,
   ⟨none, none, true, some (204/255, 204/255, 204/255), false, none,
    some (17/255, 17/255, 17/255), some (1/5), none, false⟩⟩

/-- Witness for `C9_color_normalization` at `c9wG` / `c9wPrim`, for both
`buildPrimitive` copies. -/
theorem C9_color_normalization_witness :
    (((5121 : Nat) = 5121 →
      c9wOut.color = some (([1, 2, 3, 4] : List ℚ).map fun c => c / 255)) ∧
    ((5121 : Nat) = 5123 →
      c9wOut.color = some (([1, 2, 3, 4] : List ℚ).map fun c => c / 65535)) ∧
    ((5121 : Nat) = 5126 → c9wOut.color = some ([1, 2, 3, 4] : List ℚ)) ∧
    c9wOut.color.map List.length = some ([1, 2, 3, 4] : List ℚ).length) ∧
    (((5121 : Nat) = 5121 →
      c9wOutAR.color =
        some (([1, 2, 3, 4] : List ℚ).map fun c => c / 255)) ∧
    ((5121 : Nat) = 5123 →
      c9wOutAR.color =
        some (([1, 2, 3, 4] : List ℚ).map fun c => c / 65535)) ∧
    ((5121 : Nat) = 5126 → c9wOutAR.color = some ([1, 2, 3, 4] : List ℚ)) ∧
    c9wOutAR.color.map List.length =
      some ([1, 2, 3, 4] : List ℚ).length) :=
  ⟨C9_color_normalization.1 c9wG c9wBin c9wPrim 1
    ⟨some 0, 5121, "VEC4", 1, some 1⟩ [1, 2, 3, 4] c9wOut
    (by decide) (by decide)
    (by norm_num [MV.readAccessor, c9wG, c9wBin, componentSize,
      decodeAt, List.range_succ, show typeSize "VEC4" = some 4 from rfl])
    (by norm_num [MV.buildPrimitive, MV.readAccessor, MV.buildMaterial,
      c9wG, c9wBin, c9wPrim, c9wOut, componentSize, decodeAt,
      List.range_succ, show typeSize "VEC4" = some 4 from rfl,
      show typeSize "SCALAR" = some 1 from rfl]),
   C9_color_normalization.2 c9wG c9wBin c9wPrim 1
    ⟨some 0, 5121, "VEC4", 1, some 1⟩ [1, 2, 3, 4] false c9wOutAR
    (by decide) (by decide)
    (by norm_num [AR.readAccessor, c9wG, c9wBin, componentSize,
      decodeAt, List.range_succ, show typeSize "VEC4" = some 4 from rfl])
    (by norm_num [AR.buildPrimitive, AR.readAccessor, AR.buildMaterial,
      c9wG, c9wBin, c9wPrim, c9wOutAR, componentSize, decodeAt,
      List.range_succ, show typeSize "VEC4" = some 4 from rfl,
      show typeSize "SCALAR" = some 1 from rfl])⟩

/-! ## C7 — normalization geometry -/

/-- `min` commutes with the affine map `x ↦ s·(x + o)` for `0 ≤ s`. -/
theorem min_affine (s a b o : ℚ) (hs : 0 ≤ s) :
    min (s * (a + o)) (s * (b + o)) = s * (min a b + o) := by
  rcases le_total a b with h | h
  · rw [min_eq_left (by nlinarith), min_eq_left h]
  · rw [min_eq_right (by nlinarith), min_eq_right h]

/-- `max` commutes with the affine map `x ↦ s·(x + o)` for `0 ≤ s`. -/
theorem max_affine (s a b o : ℚ) (hs : 0 ≤ s) :
    max (s * (a + o)) (s * (b + o)) = s * (max a b + o) := by
  rcases le_total a b with h | h
  · rw [max_eq_right (by nlinarith), max_eq_right h]
  · rw [max_eq_left (by nlinarith), max_eq_left h]

/-- Multiplication by a non-negative scalar distributes over `max`. -/
theorem mul_max_nonneg (s a b : ℚ) (hs : 0 ≤ s) :
    s * max a b = max (s * a) (s * b) := by
  rcases le_total a b with h | h
  · rw [max_eq_right h, max_eq_right (by nlinarith)]
  · rw [max_eq_left h, max_eq_left (by nlinarith)]

/-- The affine image of a point under scale `s` and pre-offset `o`. -/
def affinePt (s : ℚ) (o : V3) (p : V3) : V3 :=
  ⟨s * (p.x + o.x), s * (p.y + o.y), s * (p.z + o.z)⟩

/-- The bounding box of an affinely mapped point cloud is the affine image
of the bounding box, for a non-negative scale. -/
theorem bboxOf_affine (s : ℚ) (o : V3) (hs : 0 ≤ s) (pts : List V3) :
    bboxOf (pts.map (affinePt s o)) = (bboxOf pts).map fun bx =>
      ⟨affinePt s o bx.lo, affinePt s o bx.hi⟩ := by
  have step : ∀ (ps : List V3) (bx : Box3),
      (ps.map (affinePt s o)).foldl
          (fun bx q => ⟨vmin bx.lo q, vmax bx.hi q⟩)
          ⟨affinePt s o bx.lo, affinePt s o bx.hi⟩
        = (fun bx => (⟨affinePt s o bx.lo, affinePt s o bx.hi⟩ : Box3))
            (ps.foldl (fun bx q => ⟨vmin bx.lo q, vmax bx.hi q⟩) bx) := by
    intro ps
    induction ps with
    | nil => intro bx; rfl
    | cons q qs ih =>
      intro bx
      rw [List.map_cons, List.foldl_cons, List.foldl_cons]
      have hmin : vmin (affinePt s o bx.lo) (affinePt s o q)
          = affinePt s o (vmin bx.lo q) := by
        simp only [vmin, affinePt, min_affine _ _ _ _ hs]
      have hmax : vmax (affinePt s o bx.hi) (affinePt s o q)
          = affinePt s o (vmax bx.hi q) := by
        simp only [vmax, affinePt, max_affine _ _ _ _ hs]
      rw [hmin, hmax]
      exact ih ⟨vmin bx.lo q, vmax bx.hi q⟩
  cases pts with
  | nil => rfl
  | cons p ps =>
    exact congrArg some (step ps ⟨p, p⟩)

/-- Each corner of a computed bounding box bounds the other. -/
theorem bboxOf_lo_le_hi (pts : List V3) (bx : Box3)
    (h : bboxOf pts = some bx) :
    bx.lo.x ≤ bx.hi.x ∧ bx.lo.y ≤ bx.hi.y ∧ bx.lo.z ≤ bx.hi.z := by
  have step : ∀ (ps : List V3) (b : Box3),
      b.lo.x ≤ b.hi.x → b.lo.y ≤ b.hi.y → b.lo.z ≤ b.hi.z →
      (ps.foldl (fun bx q => ⟨vmin bx.lo q, vmax bx.hi q⟩) b).lo.x ≤
          (ps.foldl (fun bx q => ⟨vmin bx.lo q, vmax bx.hi q⟩) b).hi.x ∧
        (ps.foldl (fun bx q => ⟨vmin bx.lo q, vmax bx.hi q⟩) b).lo.y ≤
          (ps.foldl (fun bx q => ⟨vmin bx.lo q, vmax bx.hi q⟩) b).hi.y ∧
        (ps.foldl (fun bx q => ⟨vmin bx.lo q, vmax bx.hi q⟩) b).lo.z ≤
          (ps.foldl (fun bx q => ⟨vmin bx.lo q, vmax bx.hi q⟩) b).hi.z := by
    intro ps
    induction ps with
    | nil => intro b h1 h2 h3; exact ⟨h1, h2, h3⟩
    | cons q qs ih =>
      intro b h1 h2 h3
      rw [List.foldl_cons]
      refine ih ⟨vmin b.lo q, vmax b.hi q⟩ ?_ ?_ ?_ <;>
        simp only [vmin, vmax] <;>
        [exact le_trans (min_le_left _ _) (le_trans h1 (le_max_left _ _));
         exact le_trans (min_le_left _ _) (le_trans h2 (le_max_left _ _));
         exact le_trans (min_le_left _ _) (le_trans h3 (le_max_left _ _))]
  cases pts with
  | nil => simp [bboxOf] at h
  | cons p ps =>
    simp only [bboxOf, Option.some.injEq] at h
    subst h
    exact step ps ⟨p, p⟩ le_rfl le_rfl le_rfl

/-- Effect of the AR `normalizeModel` on the world-space point cloud of a
freshly composed scene (identity root transform): every world point is
first translated by the computed offsets and then scaled uniformly. -/
theorem AR.normalize_worldPoints (group : SceneGroup) (T : ℚ) (bx : Box3)
    (hpos : group.pos = ⟨0, 0, 0⟩) (hscl : group.scl = ⟨1, 1, 1⟩)
    (hbx : bboxOf group.worldPoints = some bx)
    (hmax : maxDimOf (boxSize bx) ≠ 0) :
    (AR.normalizeModel group T).1.worldPoints =
      group.worldPoints.map
        (affinePt (T / maxDimOf (boxSize bx))
          ⟨-(boxCenter bx).x, -bx.lo.y, -(boxCenter bx).z⟩) := by
  unfold AR.normalizeModel
  rw [hbx]
  dsimp only
  rw [if_neg hmax]
  simp only [SceneGroup.worldPoints, List.flatMap_map, List.map_flatMap,
    List.map_map]
  congr 1
  funext c
  try simp only [List.map_map]
  congr 1
  funext b
  simp only [Function.comp, xformPt, affinePt, hpos, hscl]
  rw [V3.mk.injEq]
  refine ⟨by ring, by ring, by ring⟩

/-- Freshly composed scene: one child at the origin with body points
`(0,0,0)` and `(1,1,1)`. -/
def c7cGroup : SceneGroup :=
  ⟨⟨0, 0, 0⟩, ⟨1, 1, 1⟩, [⟨⟨0, 0, 0⟩, ⟨1, 1, 1⟩, [⟨0, 0, 0⟩, ⟨1, 1, 1⟩]⟩]⟩

/-- **C7, counterexample.**  The ModelViewer `normalizeModel` (target size
2, its call-site value) scales first and then recentres the whole bounding
box at the origin: the resulting minimum Y coordinate is `-1`, not `0`,
refuting the claim that `normalizeModel` repositions child content before
scaling and leaves the minimum Y at zero. -/
theorem C7_counterexample :
    (bboxOf (MV.normalizeModel c7cGroup 2).worldPoints).map (fun b => b.lo.y)
      = some (-1) ∧ ¬ ((-1 : ℚ) = 0) := by
  constructor
  · norm_num [MV.normalizeModel, SceneGroup.worldPoints, bboxOf, xformPt,
      vmin, vmax, boxSize, boxCenter, maxDimOf, c7cGroup]
  · norm_num

/-- **C7 (amended).**  Only the AR `normalizeModel` implements
reposition-before-scale: for every freshly composed scene (identity root
transform, geometry in the children) with non-zero maximum dimension and
positive target size `T`, the direct children are shifted using the
*original* bounding box and only then is the uniform scale applied, and
the resulting world bounding box has maximum dimension exactly `T`,
horizontal center `(0, 0)`, and minimum Y exactly `0` (exact rational
arithmetic in place of floating point).  The ModelViewer `normalizeModel`
violates the claim (see `C7_counterexample`). -/
theorem C7_ar_normalize_grounds_and_scales
    (group : SceneGroup) (T : ℚ) (bx : Box3)
    (hpos : group.pos = ⟨0, 0, 0⟩) (hscl : group.scl = ⟨1, 1, 1⟩)
    (hbx : bboxOf group.worldPoints = some bx)
    (hT : 0 < T) (hmax : maxDimOf (boxSize bx) ≠ 0) :
    ((bboxOf (AR.normalizeModel group T).1.worldPoints).map fun b =>
        (maxDimOf (boxSize b), (boxCenter b).x, (boxCenter b).z, b.lo.y))
      = some (T, 0, 0, 0) := by
  obtain ⟨hx, hy, hz⟩ := bboxOf_lo_le_hi group.worldPoints bx hbx
  have hmd0 : 0 ≤ maxDimOf (boxSize bx) := by
    simp only [maxDimOf, boxSize]
    exact le_trans (by linarith : (0:ℚ) ≤ bx.hi.x - bx.lo.x)
      (le_max_left _ _)
  have hmdpos : 0 < maxDimOf (boxSize bx) :=
    lt_of_le_of_ne hmd0 (Ne.symm hmax)
  have hs : 0 ≤ T / maxDimOf (boxSize bx) := le_of_lt (div_pos hT hmdpos)
  rw [AR.normalize_worldPoints group T bx hpos hscl hbx hmax,
    bboxOf_affine _ _ hs group.worldPoints, hbx]
  set s := T / maxDimOf (boxSize bx) with hsdef
  simp only [Option.map, affinePt, boxSize, boxCenter, maxDimOf]
  refine congrArg some ?_
  rw [Prod.mk.injEq, Prod.mk.injEq, Prod.mk.injEq]
  refine ⟨?_, by ring, by ring, by ring⟩
  have d1 : s * (bx.hi.x + -((bx.lo.x + bx.hi.x) / 2))
      - s * (bx.lo.x + -((bx.lo.x + bx.hi.x) / 2))
      = s * (bx.hi.x - bx.lo.x) := by ring
  have d2 : s * (bx.hi.y + -bx.lo.y) - s * (bx.lo.y + -bx.lo.y)
      = s * (bx.hi.y - bx.lo.y) := by ring
  have d3 : s * (bx.hi.z + -((bx.lo.z + bx.hi.z) / 2))
      - s * (bx.lo.z + -((bx.lo.z + bx.hi.z) / 2))
      = s * (bx.hi.z - bx.lo.z) := by ring
  rw [d1, d2, d3, ← mul_max_nonneg _ _ _ hs, ← mul_max_nonneg _ _ _ hs]
  have hmd : max (bx.hi.x - bx.lo.x)
      (max (bx.hi.y - bx.lo.y) (bx.hi.z - bx.lo.z))
      = maxDimOf (boxSize bx) := rfl
  rw [hmd, hsdef]
  exact div_mul_cancel₀ T hmax

/-- Freshly composed scene: one child with body points `(0,0,0)` and
`(2,2,2)`. -/
def c7wGroup : SceneGroup :=
  ⟨⟨0, 0, 0⟩, ⟨1, 1, 1⟩, [⟨⟨0, 0, 0⟩, ⟨1, 1, 1⟩, [⟨0, 0, 0⟩, ⟨2, 2, 2⟩]⟩]⟩

/-- Witness for `C7_ar_normalize_grounds_and_scales` at `c7wGroup` with
the AR call-site target size `1.5`. -/
theorem C7_ar_normalize_grounds_and_scales_witness :
    ((bboxOf (AR.normalizeModel c7wGroup (3/2)).1.worldPoints).map fun b =>
        (maxDimOf (boxSize b), (boxCenter b).x, (boxCenter b).z, b.lo.y))
      = some (3/2, 0, 0, 0) :=
  C7_ar_normalize_grounds_and_scales c7wGroup (3/2) ⟨⟨0, 0, 0⟩, ⟨2, 2, 2⟩⟩
    rfl rfl
    (by norm_num [SceneGroup.worldPoints, c7wGroup, xformPt, bboxOf,
      vmin, vmax])
    (by norm_num)
    (by norm_num [maxDimOf, boxSize])

end ARScanner
